import Mathlib

/-!
Verification of the churn-risk ticket import and analysis pipeline.

This file gives a shallow embedding of the pipeline code
(`src/backend/src/services/ticket_import.py`,
`src/backend/src/services/openrouter.py`,
`src/backend/src/integrations/hubspot.py`) and proves properties of it.

Modelling conventions:
* Python strings are Lean `String`s; string operations (lower-casing,
  containment, splitting, trimming) are reimplemented over `List Char`
  so that they evaluate by kernel reduction.
* Python `dict.get(k, d)` on the property bags becomes `Option.getD`;
  a missing key is `none`.
* `datetime` values are represented by their ISO-8601 text; the pipeline
  only stores them, so no date arithmetic is modelled.
* External collaborators (the HubSpot HTTP API, the OpenRouter HTTP API,
  the email-thread fetch) are oracles passed in as functions, with
  `Except` capturing raised exceptions.
* The SQLAlchemy session is modelled as a pair of database states:
  `durable` (what is committed) and `staged` (the session view); `commit`
  publishes `staged`, `rollback` restores it from `durable`.
* Floats (`sentiment_confidence`, topic confidences) are modelled as `Rat`:
  the pipeline never does float arithmetic on them, it only stores and
  compares them.
-/

deriving instance DecidableEq for Except

namespace ChurnRisk

/-! ### String helpers (code-point semantics, as in Python) -/

/-- ASCII lower-casing of one character, the fragment of Python
`str.lower` exercised by the pipeline status strings. -/
def lowerChar (c : Char) : Char :=
  if 'A' ≤ c ∧ c ≤ 'Z' then Char.ofNat (c.toNat + 32) else c

/-- Python `s.lower()` (restricted to its ASCII behaviour). -/
def strLower (s : String) : String := ⟨s.data.map lowerChar⟩

/-- Boolean list-prefix test. -/
def isPrefOf : List Char → List Char → Bool
  | [], _ => true
  | _ :: _, [] => false
  | a :: as, b :: bs => a = b && isPrefOf as bs

/-- Python `pat in s` on character lists: `pat` occurs contiguously. -/
def containsSubCL (pat : List Char) : List Char → Bool
  | [] => isPrefOf pat []
  | s :: rest => isPrefOf pat (s :: rest) || containsSubCL pat rest

/-- Python substring containment `pat in s`. -/
def containsSub (s pat : String) : Bool := containsSubCL pat.data s.data

/-- Whitespace recognized by Python `str.strip()`. -/
def isPyWs (c : Char) : Bool :=
  c = ' ' || c = '\t' || c = '\n' || c = '\r' || c = Char.ofNat 11 || c = Char.ofNat 12

/-- Python `s.strip()` on character lists. -/
def trimCL (cs : List Char) : List Char :=
  ((cs.dropWhile isPyWs).reverse.dropWhile isPyWs).reverse

/-- Python `s.strip()`. -/
def strTrim (s : String) : String := ⟨trimCL s.data⟩

/-- Python `s.split("\n")`: split on newlines, keeping empty pieces. -/
def splitOnNl : List Char → List (List Char)
  | [] => [[]]
  | c :: rest =>
    match splitOnNl rest with
    | [] => [[]]
    | p :: ps => if c = '\n' then [] :: p :: ps else (c :: p) :: ps

/-- Python `s.split("\n")` on strings. -/
def strSplitNl (s : String) : List String := (splitOnNl s.data).map String.mk

/-- Python `s.replace("Z", "+00:00")`, used to normalize HubSpot ISO dates. -/
def replaceZ (s : String) : String :=
  ⟨(s.data.map (fun c => if c = 'Z' then "+00:00".data else [c])).flatten⟩

/-- Lexicographic `≤` on character lists by code point, matching Python
string comparison (used as the `sort` key order). -/
def lexLe : List Char → List Char → Bool
  | [], _ => true
  | _ :: _, [] => false
  | a :: as, b :: bs => if a = b then lexLe as bs else decide (a < b)

/-! ### Enumerations from `src/models/ticket.py` and `src/models/integration.py` -/

/-- Enum `TicketStatus` from `src/models/ticket.py`. -/
inductive TicketStatus
  | NEW
  | OPEN
  | WAITING
  | CLOSED
deriving DecidableEq, Repr

/-- Enum `SentimentScore` from `src/models/ticket.py`. -/
inductive SentimentScore
  | VERY_NEGATIVE
  | NEGATIVE
  | NEUTRAL
  | POSITIVE
  | VERY_POSITIVE
deriving DecidableEq, Repr

/-- Python `SentimentScore(value)`: `some` member on a valid enum value,
`none` models the raised `ValueError`. -/
def sentimentScoreOfString : String → Option SentimentScore
  | "very_negative" => some .VERY_NEGATIVE
  | "negative" => some .NEGATIVE
  | "neutral" => some .NEUTRAL
  | "positive" => some .POSITIVE
  | "very_positive" => some .VERY_POSITIVE
  | _ => none

/-- Enum `IntegrationStatus` from `src/models/integration.py`. -/
inductive IntegrationStatus
  | ACTIVE
  | ERROR
  | DISCONNECTED
deriving DecidableEq, Repr

/-! ### Status mapping: `TicketImportService._map_ticket_status` -/

/-- Function `TicketImportService._map_ticket_status` (`ticket_import.py` lines 419-434). -/
def map_ticket_status (hubspot_status : String) : TicketStatus :=
  let status_lower := strLower hubspot_status
  if containsSub status_lower "new" then .NEW
  else if containsSub status_lower "waiting" || containsSub status_lower "pending" then .WAITING
  else if containsSub status_lower "closed" || containsSub status_lower "resolved" then .CLOSED
  else .OPEN

/-! ### Email records and content assembly

`EmailRec` is the property bag of one email engagement as returned by
`HubSpotClient.get_email` (`hubspot.py` lines 231-259); each field is the
corresponding HubSpot property, `none` when absent. -/

structure EmailRec where
  hs_timestamp : Option String
  hs_email_direction : Option String
  hs_email_from : Option String
  hs_email_to : Option String
  hs_email_subject : Option String
  hs_email_text : Option String
  hs_email_html : Option String
deriving DecidableEq, Repr

/-- Email body selection (`ticket_import.py` lines 384-388): prefer
`hs_email_text`, fall back to `hs_email_html` when the text is empty
or absent. -/
def emailBody (e : EmailRec) : String :=
  let email_text := (e.hs_email_text).getD ""
  if email_text = "" then (e.hs_email_html).getD "" else email_text

/-- The content parts contributed by the `i`-th email of the thread
(`ticket_import.py` lines 374-400): a header line naming the email number,
direction, timestamp (when present), from, to and subject (when present),
followed by the body when non-empty. -/
def emailEntry (i : Nat) (e : EmailRec) : List String :=
  let timestamp := (e.hs_timestamp).getD ""
  let direction := (e.hs_email_direction).getD "UNKNOWN"
  let from_email := (e.hs_email_from).getD ""
  let to_email := (e.hs_email_to).getD ""
  let email_subject := (e.hs_email_subject).getD ""
  let header :=
    "\n[Email " ++ toString i ++ "] " ++ direction
      ++ (if timestamp ≠ "" then " at " ++ timestamp else "")
      ++ "\nFrom: " ++ from_email ++ "\nTo: " ++ to_email
      ++ (if email_subject ≠ "" then "\nSubject: " ++ email_subject else "")
  header :: (if emailBody e ≠ "" then ["\n" ++ emailBody e] else [])

/-- The parts of all emails, numbered from `i` (Python
`enumerate(email_thread, 1)` starts at 1). -/
def emailEntries (i : Nat) : List EmailRec → List String
  | [] => []
  | e :: es => emailEntry i e ++ emailEntries (i + 1) es

/-- Function `TicketImportService._build_ticket_content` (`ticket_import.py` lines
344-404). The `subject` argument is unused, exactly as in the source. -/
def build_ticket_content (subject : String) (initial_content : String)
    (email_thread : List EmailRec) : String :=
  let parts0 : List String :=
    if initial_content ≠ "" then ["Initial Description:\n" ++ initial_content] else []
  let parts1 : List String :=
    if email_thread ≠ [] then "\n\n--- Email Thread ---\n" :: emailEntries 1 email_thread
    else []
  strTrim (String.intercalate "\n" (parts0 ++ parts1))

/-- The sort key of `HubSpotClient.get_ticket_email_thread` (`hubspot.py`
lines 304-307): the `hs_timestamp` property, defaulting to `"0"` when
absent. -/
def emailSortKey (e : EmailRec) : List Char := ((e.hs_timestamp).getD "0").data

/-- Order on emails induced by the sort key. -/
def emailLe (a b : EmailRec) : Prop := lexLe (emailSortKey a) (emailSortKey b) = true

instance : DecidableRel emailLe :=
  fun a b => inferInstanceAs (Decidable (lexLe (emailSortKey a) (emailSortKey b) = true))

/-- The `emails.sort(key=...)` of `HubSpotClient.get_ticket_email_thread`
(`hubspot.py` lines 304-307). Python `list.sort` is stable; it is modelled
by the stable `List.insertionSort`. -/
def sortEmailsByTimestamp (emails : List EmailRec) : List EmailRec :=
  emails.insertionSort emailLe

/-- The content-assembly operation of the pipeline as a whole (spec 4.2
`assemble`): the chronological sort done by
`HubSpotClient.get_ticket_email_thread` followed by
`TicketImportService._build_ticket_content`. -/
def assemble (subject desc : String) (emails : List EmailRec) : String :=
  build_ticket_content subject desc (sortEmailsByTimestamp emails)

/-! ### JSON values and a JSON text parser

`JVal` models Python objects produced by `json.loads`. The parser below
models `json.loads` itself. The `json` module is standard-library code
outside this repository; the parser is a direct implementation of the
JSON grammar (fuel-based recursion so that it evaluates by reduction). -/

inductive JVal
  | jnull
  | jbool (b : Bool)
  | jnum (q : Rat)
  | jstr (s : String)
  | jarr (xs : List JVal)
  | jobj (fields : List (String × JVal))

/-- JSON insignificant whitespace. -/
def isJsonWs (c : Char) : Bool := c = ' ' || c = '\t' || c = '\n' || c = '\r'

def skipWs (cs : List Char) : List Char := cs.dropWhile isJsonWs

def quoteChar : Char := Char.ofNat 34

def backslashChar : Char := Char.ofNat 92

def lbraceChar : Char := Char.ofNat 123

def rbraceChar : Char := Char.ofNat 125

def hexDigitVal (c : Char) : Option Nat :=
  if '0' ≤ c ∧ c ≤ '9' then some (c.toNat - '0'.toNat)
  else if 'a' ≤ c ∧ c ≤ 'f' then some (c.toNat - 'a'.toNat + 10)
  else if 'A' ≤ c ∧ c ≤ 'F' then some (c.toNat - 'A'.toNat + 10)
  else none

/-- Parse the remainder of a JSON string literal (after the opening quote). -/
def parseJStr : List Char → Option (List Char × List Char)
  | [] => none
  | c :: rest =>
    if c = quoteChar then some ([], rest)
    else if c = backslashChar then
      match rest with
      | [] => none
      | e :: rest2 =>
        let simple : Option Char :=
          if e = quoteChar then some quoteChar
          else if e = backslashChar then some backslashChar
          else if e = '/' then some '/'
          else if e = 'n' then some '\n'
          else if e = 't' then some '\t'
          else if e = 'r' then some '\r'
          else if e = 'b' then some (Char.ofNat 8)
          else if e = 'f' then some (Char.ofNat 12)
          else none
        match simple with
        | some ch =>
          match parseJStr rest2 with
          | some (s, tail) => some (ch :: s, tail)
          | none => none
        | none =>
          if e = 'u' then
            match rest2 with
            | h1 :: h2 :: h3 :: h4 :: rest3 =>
              match hexDigitVal h1, hexDigitVal h2, hexDigitVal h3, hexDigitVal h4 with
              | some a, some b, some c3, some d =>
                match parseJStr rest3 with
                | some (s, tail) => some (Char.ofNat (((a * 16 + b) * 16 + c3) * 16 + d) :: s, tail)
                | none => none
              | _, _, _, _ => none
            | _ => none
          else none
    else
      match parseJStr rest with
      | some (s, tail) => some (c :: s, tail)
      | none => none

def digitsToNat (ds : List Char) : Nat :=
  ds.foldl (fun acc c => acc * 10 + (c.toNat - '0'.toNat)) 0

def isDigit (c : Char) : Bool := '0' ≤ c && c ≤ '9'

/-- Parse a JSON number starting at `cs`. -/
def parseJNum (cs : List Char) : Option (Rat × List Char) :=
  let (neg, cs1) := match cs with
    | '-' :: rest => (true, rest)
    | _ => (false, cs)
  let intDigits := cs1.takeWhile isDigit
  let cs2 := cs1.dropWhile isDigit
  if intDigits = [] then none
  else
    let (fracDigits, cs3) := match cs2 with
      | '.' :: rest =>
        (rest.takeWhile isDigit, rest.dropWhile isDigit)
      | _ => ([], cs2)
    if cs2 ≠ [] ∧ cs2.head? = some '.' ∧ fracDigits = [] then none
    else
      let (expOk, expNeg, expDigits, cs4) := match cs3 with
        | 'e' :: '-' :: rest => (!(rest.takeWhile isDigit).isEmpty, true, rest.takeWhile isDigit, rest.dropWhile isDigit)
        | 'E' :: '-' :: rest => (!(rest.takeWhile isDigit).isEmpty, true, rest.takeWhile isDigit, rest.dropWhile isDigit)
        | 'e' :: '+' :: rest => (!(rest.takeWhile isDigit).isEmpty, false, rest.takeWhile isDigit, rest.dropWhile isDigit)
        | 'E' :: '+' :: rest => (!(rest.takeWhile isDigit).isEmpty, false, rest.takeWhile isDigit, rest.dropWhile isDigit)
        | 'e' :: rest => (!(rest.takeWhile isDigit).isEmpty, false, rest.takeWhile isDigit, rest.dropWhile isDigit)
        | 'E' :: rest => (!(rest.takeWhile isDigit).isEmpty, false, rest.takeWhile isDigit, rest.dropWhile isDigit)
        | _ => (true, false, [], cs3)
      if expOk = false then none
      else
        let mantissa : Rat :=
          (digitsToNat intDigits : Rat)
            + (digitsToNat fracDigits : Rat) / ((10 : Rat) ^ fracDigits.length)
        let scaled : Rat :=
          if expNeg then mantissa / ((10 : Rat) ^ digitsToNat expDigits)
          else mantissa * ((10 : Rat) ^ digitsToNat expDigits)
        some ((if neg then -scaled else scaled), cs4)

/-- Fuel-based JSON value parser. Arrays and objects recurse by
re-entering the parser on the remaining elements with the opening bracket
re-attached, so the recursion is structural on the fuel. -/
def parseJVal : Nat → List Char → Option (JVal × List Char)
  | 0, _ => none
  | Nat.succ fuel, cs0 =>
    let cs := skipWs cs0
    match cs with
    | [] => none
    | c :: rest =>
      if c = 'n' then
        match rest with
        | 'u' :: 'l' :: 'l' :: tail => some (.jnull, tail)
        | _ => none
      else if c = 't' then
        match rest with
        | 'r' :: 'u' :: 'e' :: tail => some (.jbool true, tail)
        | _ => none
      else if c = 'f' then
        match rest with
        | 'a' :: 'l' :: 's' :: 'e' :: tail => some (.jbool false, tail)
        | _ => none
      else if c = quoteChar then
        match parseJStr rest with
        | some (s, tail) => some (.jstr ⟨s⟩, tail)
        | none => none
      else if c = '[' then
        match skipWs rest with
        | ']' :: tail => some (.jarr [], tail)
        | cs1 =>
          match parseJVal fuel cs1 with
          | none => none
          | some (v, tail1) =>
            match skipWs tail1 with
            | ',' :: tail2 =>
              match parseJVal fuel ('[' :: tail2) with
              | some (.jarr vs, tail3) => some (.jarr (v :: vs), tail3)
              | _ => none
            | ']' :: tail2 => some (.jarr [v], tail2)
            | _ => none
      else if c = lbraceChar then
        match skipWs rest with
        | cs1 =>
          if cs1.head? = some rbraceChar then some (.jobj [], cs1.tail)
          else
            match cs1 with
            | k :: cs2 =>
              if k = quoteChar then
                match parseJStr cs2 with
                | none => none
                | some (key, tail1) =>
                  match skipWs tail1 with
                  | ':' :: tail2 =>
                    match parseJVal fuel tail2 with
                    | none => none
                    | some (v, tail3) =>
                      match skipWs tail3 with
                      | ',' :: tail4 =>
                        match parseJVal fuel (lbraceChar :: tail4) with
                        | some (.jobj fs, tail5) => some (.jobj ((⟨key⟩, v) :: fs), tail5)
                        | _ => none
                      | d :: tail4 =>
                        if d = rbraceChar then some (.jobj [(⟨key⟩, v)], tail4) else none
                      | _ => none
                  | _ => none
              else none
            | [] => none
      else
        parseJNum cs |>.map (fun (q, tail) => (.jnum q, tail))

/-- Python `json.loads`: `some` parsed value on valid JSON text, `none`
models the raised `json.JSONDecodeError`. -/
def jsonLoads (s : String) : Option JVal :=
  match parseJVal (s.data.length + 1) s.data with
  | some (v, tail) => if skipWs tail = [] then some v else none
  | none => none

/-! ### Analysis result schemas (`src/schemas/ai.py`) -/

/-- Model `SentimentAnalysisResult` from `src/schemas/ai.py`. -/
structure SentimentAnalysisResult where
  sentiment : SentimentScore
  confidence : Rat
  reasoning : Option String
deriving DecidableEq, Repr

/-- Model `TopicClassification` from `src/schemas/ai.py`. -/
structure TopicClassification where
  topic_name : String
  confidence : Rat
deriving DecidableEq, Repr

/-- Model `TicketAnalysisResult` from `src/schemas/ai.py`. -/
structure TicketAnalysisResult where
  sentiment : SentimentAnalysisResult
  topics : List TopicClassification
deriving DecidableEq, Repr

/-! ### OpenRouter response handling (`src/services/openrouter.py`) -/

/-- The distinguishable failure kinds of one `analyze_ticket` attempt.
In Python all of these are exceptions (`httpx.RequestError`,
`httpx.HTTPStatusError`, `ValueError`, pydantic `ValidationError`). -/
inductive AnalyzeError
  | network
  | httpStatusError (code : Nat)
  | noChoices
  | emptyContent
  | jsonDecodeError
  | missingField (f : String)
  | badValue
deriving DecidableEq, Repr

/-- Lookup in a parsed JSON object: Python `d.get(k)` / `d[k]`. -/
def jlookup (fields : List (String × JVal)) (k : String) : Option JVal :=
  (fields.find? (fun p => p.1 == k)).map (fun p => p.2)

/-- The per-topic part of `OpenRouterAnalyzer._parse_analysis_result`
(`openrouter.py` lines 188-194): `topic["name"]` / `topic["confidence"]`
raise `KeyError` when absent, and the pydantic `TopicClassification`
model rejects a non-string name or a confidence outside `[0, 1]`. -/
def parseTopics : List JVal → Except AnalyzeError (List TopicClassification)
  | [] => .ok []
  | .jobj tf :: rest =>
    match jlookup tf "name", jlookup tf "confidence" with
    | some (.jstr n), some (.jnum q) =>
      if 0 ≤ q ∧ q ≤ 1 then
        match parseTopics rest with
        | .ok ts => .ok (⟨n, q⟩ :: ts)
        | .error e => .error e
      else .error .badValue
    | _, _ => .error .badValue
  | _ :: _ => .error .badValue

/-- Function `OpenRouterAnalyzer._parse_analysis_result` (`openrouter.py` lines
171-196). Top-level `sentiment` and `topics` keys are required; inside the
sentiment object, a missing `score` defaults to `"neutral"`, a missing
`confidence` defaults to `0.5`, a missing `reasoning` defaults to `None`.
An unknown score string raises `ValueError` (the `SentimentScore` enum
constructor); a confidence outside `[0, 1]` or of the wrong type is
rejected by the pydantic model. Python duck-typed iteration over a
non-list `topics` value is modelled as an error. -/
def parse_analysis_result (parsed : JVal) : Except AnalyzeError TicketAnalysisResult :=
  match parsed with
  | .jobj fields =>
    match jlookup fields "sentiment" with
    | none => .error (.missingField "sentiment")
    | some sval =>
      match jlookup fields "topics" with
      | none => .error (.missingField "topics")
      | some tval =>
        match sval with
        | .jobj sfields =>
          let scoreE : Except AnalyzeError SentimentScore :=
            match jlookup sfields "score" with
            | none =>
              match sentimentScoreOfString "neutral" with
              | some sc => .ok sc
              | none => .error .badValue
            | some (.jstr s) =>
              match sentimentScoreOfString s with
              | some sc => .ok sc
              | none => .error .badValue
            | some _ => .error .badValue
          let confE : Except AnalyzeError Rat :=
            match jlookup sfields "confidence" with
            | none => .ok (1 / 2)
            | some (.jnum q) => if 0 ≤ q ∧ q ≤ 1 then .ok q else .error .badValue
            | some _ => .error .badValue
          let reasonE : Except AnalyzeError (Option String) :=
            match jlookup sfields "reasoning" with
            | none => .ok none
            | some .jnull => .ok none
            | some (.jstr s) => .ok (some s)
            | some _ => .error .badValue
          match scoreE, confE, reasonE with
          | .ok sc, .ok q, .ok r =>
            match tval with
            | .jarr xs =>
              match parseTopics xs with
              | .ok ts => .ok ⟨⟨sc, q, r⟩, ts⟩
              | .error e => .error e
            | _ => .error .badValue
          | .error e, _, _ => .error e
          | _, .error e, _ => .error e
          | _, _, .error e => .error e
        | _ => .error .badValue
  | _ => .error (.missingField "sentiment")

/-- The code-fence stripping of `OpenRouterAnalyzer.analyze_ticket`
(`openrouter.py` lines 94-103): when the content starts with three
backticks, drop the opening fence line and a trailing fence line, then
strip whitespace. -/
def stripCodeFence (content : String) : String :=
  if isPrefOf "```".data content.data then
    let lines := strSplitNl content
    let lines1 :=
      match lines with
      | l0 :: rest => if isPrefOf "```".data l0.data then rest else lines
      | [] => lines
    let lines2 :=
      match lines1.getLast? with
      | some last => if strTrim last = "```" then lines1.dropLast else lines1
      | none => lines1
    strTrim (String.intercalate "\n" lines2)
  else content

/-- The observable outcome of one OpenRouter HTTP call: a transport
error, a non-2xx status (raised by `raise_for_status`), or a 2xx JSON
envelope whose `choices[i].message.content` strings are listed. -/
inductive ApiOutcome
  | network
  | httpError (code : Nat)
  | ok (choices : List String)

/-- The body of one `OpenRouterAnalyzer.analyze_ticket` attempt
(`openrouter.py` lines 62-110) given the outcome of its HTTP call:
raise on transport/status errors, require a non-empty `choices`, require
non-blank content, strip an incidental code fence, `json.loads` the
content, and parse the structured result. -/
def analyze_once (outcome : ApiOutcome) : Except AnalyzeError TicketAnalysisResult :=
  match outcome with
  | .network => .error .network
  | .httpError code => .error (.httpStatusError code)
  | .ok choices =>
    match choices.head? with
    | none => .error .noChoices
    | some content =>
      if strTrim content = "" then .error .emptyContent
      else
        let content1 := stripCodeFence (strTrim content)
        match jsonLoads content1 with
        | none => .error .jsonDecodeError
        | some parsed => parse_analysis_result parsed

/-! ### Retry policy

`analyze_ticket` is wrapped in
`@retry(stop=stop_after_attempt(3), wait=wait_exponential(multiplier=1, min=2, max=10))`
(`openrouter.py` lines 32-35). The `tenacity` library is outside this
repository; its semantics for this configuration are modelled below. -/

/-- Modelled from the spec: the retry-exhausted failure (tenacity
`RetryError`) surfaced after the last attempt, preserving the last
underlying error for diagnostics. -/
structure RetryExhausted (E : Type) where
  lastError : E
deriving DecidableEq, Repr

/-- Modelled from the spec: `wait_exponential(multiplier=1, min=2, max=10)` —
the wait in seconds after failed attempt `n` is `1 * 2 ^ n` clamped into
`[2, 10]`: exponential backoff starting at 2s and capped at 10s. -/
def retryWait (n : Nat) : Nat := max 2 (min (2 ^ n) 10)

/-- Modelled from the spec: `@retry(stop=stop_after_attempt(3), ...)` —
run the wrapped call up to 3 times (re-running it on any raised
exception), and after the 3rd failure raise a retry-exhausted error
wrapping the last underlying error. `attempt n` is the outcome of the
`n`-th execution of the wrapped call. -/
def retryCall {E A : Type} (attempt : Nat → Except E A) : Except (RetryExhausted E) A :=
  match attempt 1 with
  | .ok a => .ok a
  | .error _ =>
    match attempt 2 with
    | .ok a => .ok a
    | .error _ =>
      match attempt 3 with
      | .ok a => .ok a
      | .error e => .error ⟨e⟩

/-- The full retried classification call for one ticket: `analyze_ticket`
under its `tenacity` decorator, given the per-attempt HTTP outcomes for
that call. Each call runs the retry loop afresh. -/
def analyze_ticket_retried (attemptOutcome : Nat → ApiOutcome) :
    Except (RetryExhausted AnalyzeError) TicketAnalysisResult :=
  retryCall (fun n => analyze_once (attemptOutcome n))

/-! ### Data model of the reconciliation engine

The run is tenant-scoped; all modelled state belongs to the one tenant of
the run, so `tenant_id` columns are left implicit. -/

/-- The `credentials` JSONB of an `Integration` row: the keys the
pipeline reads (`access_token`, `refresh_token`, `hub_id`). -/
structure Creds where
  access_token : Option String
  refresh_token : Option String
  hub_id : Option String
deriving DecidableEq, Repr

/-- The fields of `Integration` (`src/models/integration.py`) that the
pipeline reads or writes (type is fixed to HUBSPOT by the lookup). -/
structure IntegrationRow where
  status : IntegrationStatus
  credentials : Creds
  last_synced_at : Option Nat
deriving DecidableEq, Repr

/-- The `properties` bag of one HubSpot source ticket, with the
properties requested by `search_tickets` (`hubspot.py` lines 89-97).
Each is `none` when HubSpot omits it. -/
structure TicketProps where
  subject : Option String
  content : Option String
  hs_pipeline_stage : Option String
  hs_ticket_priority : Option String
  createdate : Option String
  hs_lastmodifieddate : Option String
deriving DecidableEq, Repr

/-- One item of a HubSpot ticket batch: `{id, properties}`
(`ticket_import.py` lines 210-211; `id` can be absent, line 213). -/
structure SourceTicket where
  id : Option String
  properties : TicketProps
deriving DecidableEq, Repr

/-- The fields of a persisted `Ticket` row (`src/models/ticket.py`) that
the pipeline reads or writes. `source_metadata` is `dict(properties)`
plus the fetched email thread (`ticket_import.py` lines 259-261);
datetimes are carried as their normalized ISO text, and
`sentiment_analyzed_at` as an abstract clock value. -/
structure TicketRow where
  external_id : String
  subject : String
  content : String
  status : TicketStatus
  hubspot_created_at : Option String
  hubspot_updated_at : Option String
  priority : Option String
  external_url : String
  source_metadata : TicketProps × List EmailRec
  sentiment_score : Option SentimentScore
  sentiment_confidence : Option Rat
  sentiment_analyzed_at : Option Nat
deriving DecidableEq, Repr

/-- The tenant-scoped database state touched by a run. -/
structure DBState where
  tickets : List TicketRow
  integration : Option IntegrationRow
deriving DecidableEq, Repr

/-- A SQLAlchemy session over the tenant database: `durable` is the
committed state, `staged` the session view holding uncommitted writes. -/
structure Session where
  durable : DBState
  staged : DBState
deriving DecidableEq, Repr

/-- Session `db.commit()`: publish the staged writes. `ok = false` models a
commit that raises; the durable state is then unchanged. -/
def sessionCommit (ok : Bool) (s : Session) : Except Unit Session :=
  if ok then .ok ⟨s.staged, s.staged⟩ else .error ()

/-- Counters `ImportResult` (`ticket_import.py` lines 22-27). -/
structure ImportResult where
  imported : Nat
  analyzed : Nat
  skipped : Nat
  failed : Nat
deriving DecidableEq, Repr

def ImportResult.zero : ImportResult := ⟨0, 0, 0, 0⟩

/-- Function `TicketImportService._get_ticket_by_external_id` (`ticket_import.py`
lines 406-417): the ticket row of this tenant with the given external id
(`scalar_one_or_none`; the schema makes it unique). -/
def findTicket (tickets : List TicketRow) (eid : String) : Option TicketRow :=
  tickets.find? (fun t => t.external_id == eid)

/-- In-place ORM mutation of the row(s) with external id `eid`. -/
def updateTicket (tickets : List TicketRow) (eid : String) (f : TicketRow → TicketRow) :
    List TicketRow :=
  tickets.map (fun t => if t.external_id == eid then f t else t)

/-! ### Per-ticket processing: `TicketImportService._process_ticket` -/

/-- The per-run environment of per-ticket processing: the classification
call (already wrapped in its retry policy — its error is the
retry-exhausted failure), the email-thread fetch oracle keyed by ticket
external id (`.error` models a raised exception), and the wall clock
(`datetime.now`). -/
structure TicketEnv where
  analyzer : String → Except (RetryExhausted AnalyzeError) TicketAnalysisResult
  thread : String → Except Unit (List EmailRec)
  now : Nat

/-- Function `HubSpotClient.get_ticket_email_thread` (`hubspot.py` lines 261-309):
fetch the associated emails, then sort them by `hs_timestamp` (missing
timestamp keyed as `"0"`). -/
def get_ticket_email_thread (thread : String → Except Unit (List EmailRec))
    (ticket_id : String) : Except Unit (List EmailRec) :=
  match thread ticket_id with
  | .ok emails => .ok (sortEmailsByTimestamp emails)
  | .error e => .error e

/-- Function `TicketImportService._fetch_email_thread` (`ticket_import.py` lines
321-342): best effort — a raised exception degrades to no thread. -/
def fetch_email_thread (thread : String → Except Unit (List EmailRec))
    (ticket_id : String) : List EmailRec :=
  match get_ticket_email_thread thread ticket_id with
  | .ok emails => emails
  | .error _ => []

/-- The sentiment-analysis gate of `_process_ticket` (`ticket_import.py`
lines 295-319): analyze only when the (upserted) ticket has no sentiment
and the assembled content is non-empty; on success write the sentiment
fields and count `analyzed`, on a raised exception count `failed`; when
sentiment is already set count `skipped`; when content is empty do
nothing. `t` is the upserted row (`ticket` in the source). -/
def sentiment_gate (env : TicketEnv) (subject content : String) (t : TicketRow)
    (tickets : List TicketRow) (res : ImportResult) : List TicketRow × ImportResult :=
  if t.sentiment_score = none ∧ content ≠ "" then
    match env.analyzer ("Subject: " ++ subject ++ "\n\n" ++ content) with
    | .ok analysis_result =>
      (updateTicket tickets t.external_id (fun u =>
        { u with
          sentiment_score := some analysis_result.sentiment.sentiment
          sentiment_confidence := some analysis_result.sentiment.confidence
          sentiment_analyzed_at := some env.now }),
       { res with analyzed := res.analyzed + 1 })
    | .error _ => (tickets, { res with failed := res.failed + 1 })
  else if t.sentiment_score ≠ none then
    (tickets, { res with skipped := res.skipped + 1 })
  else (tickets, res)

/-- Function `TicketImportService._process_ticket` (`ticket_import.py` lines
192-319): extract fields, fetch the email thread (best effort), assemble
content, map status, build the external URL, upsert by external id, then
run the sentiment gate. `integration` supplies `hub_id`. -/
def process_ticket (env : TicketEnv) (integration : IntegrationRow)
    (ticket_data : SourceTicket) (tickets : List TicketRow) (res : ImportResult) :
    List TicketRow × ImportResult :=
  match ticket_data.id with
  | none => (tickets, { res with failed := res.failed + 1 })
  | some external_id =>
    let properties := ticket_data.properties
    let subject := (properties.subject).getD "No Subject"
    let initial_content := (properties.content).getD ""
    let status_str := (properties.hs_pipeline_stage).getD "new"
    let priority := properties.hs_ticket_priority
    let email_thread_data := fetch_email_thread env.thread external_id
    let content := build_ticket_content subject initial_content email_thread_data
    let status := map_ticket_status status_str
    let hubspot_created_at := (properties.createdate).map replaceZ
    let hubspot_updated_at := (properties.hs_lastmodifieddate).map replaceZ
    let hub_id := (integration.credentials.hub_id).getD ""
    let external_url :=
      if hub_id ≠ "" then
        "https://app.hubspot.com/help-desk/" ++ hub_id ++ "/view/search/ticket/"
          ++ external_id ++ "/"
      else "https://app.hubspot.com/contacts/ticket/" ++ external_id
    let source_metadata := (properties, email_thread_data)
    match findTicket tickets external_id with
    | some existing_ticket =>
      let t :=
        { existing_ticket with
          subject := subject
          content := content
          status := status
          hubspot_created_at := hubspot_created_at
          hubspot_updated_at := hubspot_updated_at
          priority := priority
          external_url := external_url
          source_metadata := source_metadata }
      let tickets1 := updateTicket tickets external_id (fun u =>
        { u with
          subject := subject
          content := content
          status := status
          hubspot_created_at := hubspot_created_at
          hubspot_updated_at := hubspot_updated_at
          priority := priority
          external_url := external_url
          source_metadata := source_metadata })
      sentiment_gate env subject content t tickets1 res
    | none =>
      let t : TicketRow :=
        { external_id := external_id
          subject := subject
          content := content
          status := status
          hubspot_created_at := hubspot_created_at
          hubspot_updated_at := hubspot_updated_at
          priority := priority
          external_url := external_url
          source_metadata := source_metadata
          sentiment_score := none
          sentiment_confidence := none
          sentiment_analyzed_at := none }
      let tickets1 := tickets ++ [t]
      sentiment_gate env subject content t tickets1
        { res with imported := res.imported + 1 }

/-! ### The per-item loop and the run -/

/-- The per-item loop of `import_and_analyze_tickets` (`ticket_import.py`
lines 93-99): run `step` on each item; a raised exception (`.error`,
carrying the partially mutated session state) increments `failed` for
that item and the loop proceeds with the next item. -/
def import_loop {St : Type} (failStep : St → St)
    (step : SourceTicket → St → Except St St) :
    List SourceTicket → St → St
  | [], st => st
  | td :: rest, st =>
    let st1 :=
      match step td st with
      | .ok st2 => st2
      | .error partialSt => failStep partialSt
    import_loop failStep step rest st1

/-- The loop state: the staged tickets and the running counters. -/
def LoopState : Type := List TicketRow × ImportResult

/-- Incrementing `failed` on a caught per-item exception (line 99). -/
def failIncr (st : LoopState) : LoopState := (st.1, { st.2 with failed := st.2.failed + 1 })

/-- The engine instantiation of the loop step: `_process_ticket` (whose
modelled execution is total — every handled failure is already a counted
outcome inside it). -/
def engineStep (env : TicketEnv) (integration : IntegrationRow) :
    SourceTicket → LoopState → Except LoopState LoopState :=
  fun td st => .ok (process_ticket env integration td st.1 st.2)

/-! ### Batch fetch with token refresh -/

/-- Fetch errors of the HubSpot search call: `httpx.RequestError`
(network) or `httpx.HTTPStatusError` with a status code. -/
inductive FetchError
  | network
  | httpStatusError (code : Nat)
deriving DecidableEq, Repr

/-- The search request body built by `HubSpotClient.search_tickets`
(`hubspot.py` lines 99-108). -/
structure SearchParams where
  limit : Nat
  sort_by : String
  sort_direction : String
deriving DecidableEq, Repr

/-- The HubSpot search endpoint as an oracle: access token and request
parameters to outcome. -/
def HubSpotApi : Type := String → SearchParams → Except FetchError (List SourceTicket)

/-- Function `HubSpotClient.search_tickets` (`hubspot.py` lines 67-118): clamp the
limit to 100 and post the search request with the client token. -/
def search_tickets (api : HubSpotApi) (access_token : String) (limit : Nat)
    (sort_by sort_direction : String) : Except FetchError (List SourceTicket) :=
  api access_token ⟨min limit 100, sort_by, sort_direction⟩

/-- Run-fatal errors of `import_and_analyze_tickets`: the precondition
`ValueError`s, propagated fetch failures, and commit failures. -/
inductive RunError
  | integrationNotFound
  | integrationInactive (st : IntegrationStatus)
  | missingAccessToken
  | missingRefreshToken
  | refreshFailed
  | fetchFailed (e : FetchError)
  | midCommitFailed
  | commitFailed
deriving DecidableEq, Repr

/-- The external-outcome environment of one run. -/
structure RunEnv where
  ticketEnv : TicketEnv
  refreshOutcome : Except Unit Creds
  midCommitOk : Bool
  finalCommitOk : Bool

/-- Function `TicketImportService._fetch_recent_tickets` (`ticket_import.py` lines
123-190): search the 20 most recent tickets by `createdate` descending
(`days_back` is unused in the source — "Not used currently"); on a 401,
refresh the access token via `HubSpotClient.refresh_access_token`, store
the new credentials on the Integration row, commit immediately, and retry
the same search once with the new token; propagate any other failure.
Returns the fetched batch and the (possibly updated) integration row,
alongside the session. -/
def fetch_recent_tickets (api : HubSpotApi) (env : RunEnv)
    (integration : IntegrationRow) (access_token : String) (s : Session)
    (days_back : Nat) :
    Except RunError (List SourceTicket × IntegrationRow) × Session :=
  match search_tickets api access_token 20 "createdate" "DESCENDING" with
  | .ok response => (.ok (response, integration), s)
  | .error e =>
    match e with
    | .network => (.error (.fetchFailed .network), s)
    | .httpStatusError code =>
      if code = 401 then
      match integration.credentials.refresh_token with
      | none => (.error .missingRefreshToken, s)
      | some rt =>
        match env.refreshOutcome with
        | .error _ => (.error .refreshFailed, s)
        | .ok new_tokens =>
          let _ := rt
          let integration1 :=
            { integration with
              credentials := new_tokens
              last_synced_at := some env.ticketEnv.now }
          let s1 : Session :=
            { s with staged := { s.staged with integration := some integration1 } }
          match sessionCommit env.midCommitOk s1 with
          | .error _ => (.error .midCommitFailed, s1)
          | .ok s2 =>
            match new_tokens.access_token with
            | none => (.error .missingAccessToken, s2)
            | some new_access_token =>
              match search_tickets api new_access_token 20 "createdate" "DESCENDING" with
              | .ok response => (.ok (response, integration1), s2)
              | .error e2 => (.error (.fetchFailed e2), s2)
      else (.error (.fetchFailed (.httpStatusError code)), s)

/-- Function `TicketImportService.import_and_analyze_tickets` (`ticket_import.py`
lines 44-112): look up the active HubSpot integration and its access
token, fetch the recent batch (with the 401 refresh sub-flow), process
every item through the per-item loop, then commit once; a failed final
commit rolls back and re-raises. The returned `DBState` is the durable
state observed after the run. -/
def import_and_analyze_tickets (api : HubSpotApi) (env : RunEnv)
    (db : DBState) (days_back : Nat) : Except RunError ImportResult × DBState :=
  let s : Session := ⟨db, db⟩
  match s.staged.integration with
  | none => (.error .integrationNotFound, s.durable)
  | some integration =>
    if integration.status ≠ IntegrationStatus.ACTIVE then
      (.error (.integrationInactive integration.status), s.durable)
    else
      match integration.credentials.access_token with
      | none => (.error .missingAccessToken, s.durable)
      | some access_token =>
        match fetch_recent_tickets api env integration access_token s days_back with
        | (.error e, s1) => (.error e, s1.durable)
        | (.ok (tickets_data, integration1), s1) =>
          let st := import_loop failIncr (engineStep env.ticketEnv integration1)
            tickets_data (s1.staged.tickets, ImportResult.zero)
          let s2 : Session := { s1 with staged := { s1.staged with tickets := st.1 } }
          match sessionCommit env.finalCommitOk s2 with
          | .ok s3 => (.ok st.2, s3.durable)
          | .error _ => (.error .commitFailed, s2.durable)

/-! ### Derived per-item quantities used to state properties -/

/-- The subject `_process_ticket` extracts for an item. -/
def sourceSubject (td : SourceTicket) : String := (td.properties.subject).getD "No Subject"

/-- The content `_process_ticket` assembles for an item (for items with
an id; the thread is fetched by external id). -/
def sourceContent (env : TicketEnv) (td : SourceTicket) : String :=
  build_ticket_content (sourceSubject td) ((td.properties.content).getD "")
    (fetch_email_thread env.thread ((td.id).getD ""))

/-- The prompt `_process_ticket` sends to the analyzer for an item
(`ticket_import.py` line 299). -/
def sourcePrompt (env : TicketEnv) (td : SourceTicket) : String :=
  "Subject: " ++ sourceSubject td ++ "\n\n" ++ sourceContent env td

/-- Whether the (deterministic) classification call for an item returns
normally. -/
def analysisOk (env : TicketEnv) (td : SourceTicket) : Bool :=
  match env.analyzer (sourcePrompt env td) with
  | .ok _ => true
  | .error _ => false

/-- An item that a run starting without its row would freshly analyze:
it has an id, non-empty assembled content, and its classification call
succeeds. -/
def analyzable (env : TicketEnv) (td : SourceTicket) : Bool :=
  (td.id).isSome && (sourceContent env td != "") && analysisOk env td

/-- A database transition preserves analyzed tickets: every row (keyed
by external id) whose sentiment fields are set keeps exactly those
sentiment fields. -/
def keepsSentiment (tickets tickets' : List TicketRow) : Prop :=
  ∀ eid t, findTicket tickets eid = some t → t.sentiment_score ≠ none →
    ∃ t', findTicket tickets' eid = some t'
      ∧ t'.sentiment_score = t.sentiment_score
      ∧ t'.sentiment_confidence = t.sentiment_confidence
      ∧ t'.sentiment_analyzed_at = t.sentiment_analyzed_at

/-! ### Concrete scenario data (used in witnesses and counterexamples) -/

/-- A thread oracle with no associated emails. -/
def threadNone : String → Except Unit (List EmailRec) := fun _ => .ok []

/-- A fixed successful classification result. -/
def okAnalysis : TicketAnalysisResult := ⟨⟨.NEGATIVE, 9 / 10, none⟩, []⟩

/-- An analyzer that always succeeds. -/
def analyzerOk : String → Except (RetryExhausted AnalyzeError) TicketAnalysisResult :=
  fun _ => .ok okAnalysis

/-- The environment of a run whose classification calls all succeed. -/
def envOk : TicketEnv := ⟨analyzerOk, threadNone, 1000⟩

/-- Source ticket created "now" (round-trip scenario of the spec). -/
def tdA : SourceTicket :=
  ⟨some "A", ⟨some "SubjA", some "Hello A", some "new", none, some "2026-10-12T00:00:00Z", none⟩⟩

/-- Source ticket created two days ago. -/
def tdB : SourceTicket :=
  ⟨some "B", ⟨some "SubjB", some "Hello B", some "waiting now", none, some "2026-10-10T00:00:00Z", none⟩⟩

/-- Source ticket created ten days ago (outside a 7-day window). -/
def tdC : SourceTicket :=
  ⟨some "C", ⟨some "SubjC", some "Hello C", some "closed", none, some "2026-10-02T00:00:00Z", none⟩⟩

/-- An active HubSpot integration with a valid token. -/
def integA : IntegrationRow := ⟨.ACTIVE, ⟨some "tok", some "rtok", some "hub1"⟩, none⟩

/-- A HubSpot API that returns the three-ticket batch for the valid token. -/
def apiA : HubSpotApi := fun tok _ =>
  if tok = "tok" then .ok [tdA, tdB, tdC] else .error .network

/-- Run environment: all-succeeding analyzer, commits succeed. -/
def renvA : RunEnv := ⟨envOk, .error (), true, true⟩

/-- An empty tenant database holding the active integration. -/
def dbEmpty : DBState := ⟨[], some integA⟩

/-- An analyzer failing exactly on the prompt of ticket B (partial-failure
scenario). -/
def analyzerFailB : String → Except (RetryExhausted AnalyzeError) TicketAnalysisResult :=
  fun s => if s = sourcePrompt envOk tdB then .error ⟨.jsonDecodeError⟩ else .ok okAnalysis

/-- Run environment whose classification fails exactly for ticket B. -/
def renvFailB : RunEnv := ⟨⟨analyzerFailB, threadNone, 1000⟩, .error (), true, true⟩

/-- Run environment whose final commit fails. -/
def renvNoCommit : RunEnv := ⟨envOk, .error (), true, false⟩

/-- Emails with the same timestamp but different content. -/
def e1 : EmailRec := ⟨some "100", some "INCOMING", some "x@a", some "y@b", some "s1", some "one", none⟩

def e2 : EmailRec := ⟨some "100", some "INCOMING", some "x@a", some "y@b", some "s2", some "two", none⟩

/-- A later email with only an HTML body and no subject. -/
def e3 : EmailRec := ⟨some "200", some "OUTGOING", some "y@b", some "x@a", none, none, some "<p>html</p>"⟩

/-- An email with no timestamp (sorts earliest). -/
def e4 : EmailRec := ⟨none, some "INCOMING", some "x@a", some "y@b", some "s4", some "four", none⟩

/-- A fetched ticket with no description (and no emails: empty content). -/
def tdE : SourceTicket := ⟨some "E", ⟨some "SubjE", none, some "new", none, none, none⟩⟩

/-- A persisted, already-analyzed row for ticket E. -/
def rowE : TicketRow :=
  ⟨"E", "SubjE", "old content", .NEW, none, none, none, "",
    (⟨none, none, none, none, none, none⟩, []), some .NEUTRAL, some (1 / 2), some 5⟩

/-- The same row with its sentiment fields still null. -/
def rowE0 : TicketRow :=
  ⟨"E", "SubjE", "old content", .NEW, none, none, none, "",
    (⟨none, none, none, none, none, none⟩, []), none, none, none⟩

/-- The malformed LLM response body of the spec scenario. -/
def notJsonBody : String := "not json\x7b\x7b\x7b"

/-- Per-attempt HTTP outcomes that always deliver the malformed body. -/
def outcomesNotJson : Nat → ApiOutcome := fun _ => .ok [notJsonBody]

/-- The analyzer built from those outcomes (retry wrapper included). -/
def analyzerNotJson : String → Except (RetryExhausted AnalyzeError) TicketAnalysisResult :=
  fun _ => analyze_ticket_retried outcomesNotJson

/-- Run environment whose classification always exhausts its retries on
the malformed body. -/
def renvNotJson : RunEnv := ⟨⟨analyzerNotJson, threadNone, 1000⟩, .error (), true, true⟩

/-- Credentials delivered by a successful token refresh. -/
def credsNew : Creds := ⟨some "tokNew", some "rtokNew", none⟩

/-- An integration whose access token is expired. -/
def integOld : IntegrationRow := ⟨.ACTIVE, ⟨some "tokOld", some "rtok", some "hub1"⟩, none⟩

/-- Database holding the expired-token integration. -/
def dbOld : DBState := ⟨[], some integOld⟩

/-- API: old token gets 401; the refreshed token still fails (network). -/
def api401Fail : HubSpotApi := fun tok _ =>
  if tok = "tokOld" then .error (.httpStatusError 401)
  else if tok = "tokNew" then .error .network
  else .error (.httpStatusError 403)

/-- API: old token gets 401; the refreshed token succeeds. -/
def api401Ok : HubSpotApi := fun tok _ =>
  if tok = "tokOld" then .error (.httpStatusError 401)
  else if tok = "tokNew" then .ok [tdA]
  else .error (.httpStatusError 403)

/-- API that always fails with a 500. -/
def api500 : HubSpotApi := fun _ _ => .error (.httpStatusError 500)

/-- Run environment in which the token refresh succeeds. -/
def renvRefresh (finalOk : Bool) : RunEnv := ⟨envOk, .ok credsNew, true, finalOk⟩

/-- For retry witnesses: attempts that fail three times then would
succeed. -/
def attemptsFailThree : Nat → Except AnalyzeError TicketAnalysisResult :=
  fun n => if n ≤ 3 then .error .network else .ok okAnalysis

/-- For retry witnesses: attempts that always fail. -/
def attemptsAllFail : Nat → Except AnalyzeError TicketAnalysisResult :=
  fun _ => .error .network

/-- For retry witnesses: distinct errors on the three attempts. -/
def attemptsDistinctErrors : Nat → Except AnalyzeError TicketAnalysisResult :=
  fun n => if n = 2 then .error (.httpStatusError 500)
    else if n = 3 then .error .jsonDecodeError
    else .error .network

/-! ## Supporting lemmas -/

theorem isPrefOf_iff (p l : List Char) : isPrefOf p l = true ↔ p <+: l := by
  induction p generalizing l with
  | nil => simp [isPrefOf, List.nil_prefix]
  | cons a as ih =>
    cases l with
    | nil => simp [isPrefOf, List.prefix_nil]
    | cons b bs => simp [isPrefOf, List.cons_prefix_cons, ih]

theorem containsSubCL_iff (pat l : List Char) : containsSubCL pat l = true ↔ pat <:+: l := by
  induction l with
  | nil => simp [containsSubCL, isPrefOf_iff, List.prefix_nil, List.infix_nil]
  | cons c cs ih => simp [containsSubCL, isPrefOf_iff, ih, List.infix_cons_iff]

theorem containsSub_iff (s pat : String) :
    containsSub s pat = true ↔ pat.data <:+: s.data := containsSubCL_iff pat.data s.data

/-! ## Claim C9: status mapping -/

/-- C9: for every pipeline-stage string the lifecycle status is
determined by case-insensitive substring match, first match winning in
the order new, waiting/pending, closed/resolved, else open; in
particular "Waiting on customer" maps to waiting, "Closed and resolved"
to closed, "In Progress" to open, and "New" to new. -/
theorem status_mapping_spec :
    (∀ s : String, "new".data <:+: (strLower s).data → map_ticket_status s = .NEW)
    ∧ (∀ s : String, ¬ "new".data <:+: (strLower s).data →
        ("waiting".data <:+: (strLower s).data ∨ "pending".data <:+: (strLower s).data) →
        map_ticket_status s = .WAITING)
    ∧ (∀ s : String, ¬ "new".data <:+: (strLower s).data →
        ¬ "waiting".data <:+: (strLower s).data → ¬ "pending".data <:+: (strLower s).data →
        ("closed".data <:+: (strLower s).data ∨ "resolved".data <:+: (strLower s).data) →
        map_ticket_status s = .CLOSED)
    ∧ (∀ s : String, ¬ "new".data <:+: (strLower s).data →
        ¬ "waiting".data <:+: (strLower s).data → ¬ "pending".data <:+: (strLower s).data →
        ¬ "closed".data <:+: (strLower s).data → ¬ "resolved".data <:+: (strLower s).data →
        map_ticket_status s = .OPEN)
    ∧ map_ticket_status "Waiting on customer" = .WAITING
    ∧ map_ticket_status "Closed and resolved" = .CLOSED
    ∧ map_ticket_status "In Progress" = .OPEN
    ∧ map_ticket_status "New" = .NEW := by
  refine ⟨?_, ?_, ?_, ?_, by decide, by decide, by decide, by decide⟩
  · intro s h
    simp only [map_ticket_status]
    rw [if_pos ((containsSub_iff _ _).mpr h)]
  · intro s hn hw
    simp only [map_ticket_status]
    rw [if_neg, if_pos]
    · simp only [Bool.or_eq_true]
      rcases hw with hw | hw
      · exact Or.inl ((containsSub_iff _ _).mpr hw)
      · exact Or.inr ((containsSub_iff _ _).mpr hw)
    · simp only [containsSub_iff]
      exact hn
  · intro s hn hw hp hc
    simp only [map_ticket_status]
    rw [if_neg, if_neg, if_pos]
    · simp only [Bool.or_eq_true]
      rcases hc with hc | hc
      · exact Or.inl ((containsSub_iff _ _).mpr hc)
      · exact Or.inr ((containsSub_iff _ _).mpr hc)
    · simp only [Bool.or_eq_true, containsSub_iff]
      rintro (h | h)
      · exact hw h
      · exact hp h
    · simp only [containsSub_iff]
      exact hn
  · intro s hn hw hp hc hr
    simp only [map_ticket_status]
    rw [if_neg, if_neg, if_neg]
    · simp only [Bool.or_eq_true, containsSub_iff]
      rintro (h | h)
      · exact hc h
      · exact hr h
    · simp only [Bool.or_eq_true, containsSub_iff]
      rintro (h | h)
      · exact hw h
      · exact hp h
    · simp only [containsSub_iff]
      exact hn

/-- Witness for `status_mapping_spec`: its general conjuncts applied at
concrete pipeline-stage strings. -/
theorem status_mapping_spec_witness :
    map_ticket_status "renewal pending" = .NEW
    ∧ map_ticket_status "hold: PENDING reply" = .WAITING
    ∧ map_ticket_status "issue resolved" = .CLOSED
    ∧ map_ticket_status "In Progress" = .OPEN := by
  refine ⟨?_, ?_, ?_, ?_⟩
  · exact status_mapping_spec.1 "renewal pending" (by decide)
  · exact status_mapping_spec.2.1 "hold: PENDING reply" (by decide) (Or.inr (by decide))
  · exact status_mapping_spec.2.2.1 "issue resolved" (by decide) (by decide) (by decide)
      (Or.inr (by decide))
  · exact status_mapping_spec.2.2.2.1 "In Progress" (by decide) (by decide) (by decide)
      (by decide) (by decide)

/-! ## Claim C10: silent defaults for missing sentiment sub-fields -/

/-- C10: when the parsed classification response is an object with both
top-level "sentiment" (an object) and "topics" (a well-formed list)
keys, missing sub-fields of the sentiment object are silently defaulted
instead of being treated as malformed: a missing "score" yields the
label neutral, a missing "confidence" yields 0.5, and a missing
"reasoning" yields no reasoning; such a response parses successfully. -/
theorem parse_missing_subfields_defaulted :
    (∀ (fields sfields : List (String × JVal)) (xs : List JVal) (ts : List TopicClassification),
      jlookup fields "sentiment" = some (.jobj sfields) →
      jlookup fields "topics" = some (.jarr xs) →
      jlookup sfields "score" = none →
      jlookup sfields "confidence" = none →
      jlookup sfields "reasoning" = none →
      parseTopics xs = .ok ts →
      parse_analysis_result (.jobj fields) = .ok ⟨⟨.NEUTRAL, 1 / 2, none⟩, ts⟩)
    ∧ (∀ (fields sfields : List (String × JVal)) (xs : List JVal)
        (ts : List TopicClassification) (q : Rat) (r : String),
      jlookup fields "sentiment" = some (.jobj sfields) →
      jlookup fields "topics" = some (.jarr xs) →
      jlookup sfields "score" = none →
      jlookup sfields "confidence" = some (.jnum q) → 0 ≤ q → q ≤ 1 →
      jlookup sfields "reasoning" = some (.jstr r) →
      parseTopics xs = .ok ts →
      parse_analysis_result (.jobj fields) = .ok ⟨⟨.NEUTRAL, q, some r⟩, ts⟩)
    ∧ (∀ (fields sfields : List (String × JVal)) (xs : List JVal)
        (ts : List TopicClassification) (sc : SentimentScore) (s : String),
      jlookup fields "sentiment" = some (.jobj sfields) →
      jlookup fields "topics" = some (.jarr xs) →
      jlookup sfields "score" = some (.jstr s) →
      sentimentScoreOfString s = some sc →
      jlookup sfields "confidence" = none →
      jlookup sfields "reasoning" = none →
      parseTopics xs = .ok ts →
      parse_analysis_result (.jobj fields) = .ok ⟨⟨sc, 1 / 2, none⟩, ts⟩) := by
  refine ⟨?_, ?_, ?_⟩
  · intro fields sfields xs ts hs ht hsc hcf hr htp
    simp [parse_analysis_result, hs, ht, hsc, hcf, hr, htp, sentimentScoreOfString]
  · intro fields sfields xs ts q r hs ht hsc hcf hq0 hq1 hr htp
    simp [parse_analysis_result, hs, ht, hsc, hcf, hq0, hq1, hr, htp, sentimentScoreOfString]
  · intro fields sfields xs ts sc s hs ht hsc hscv hcf hr htp
    simp [parse_analysis_result, hs, ht, hsc, hscv, hcf, hr, htp]

/-- Witness for `parse_missing_subfields_defaulted`: a concrete response
object with an empty sentiment object and one topic parses to the
defaulted result. -/
theorem parse_missing_subfields_defaulted_witness :
    parse_analysis_result
        (.jobj [("sentiment", .jobj []), ("topics", .jarr [.jobj [("name", .jstr "Billing"), ("confidence", .jnum 1)]])])
      = .ok ⟨⟨.NEUTRAL, 1 / 2, none⟩, [⟨"Billing", 1⟩]⟩ :=
  parse_missing_subfields_defaulted.1
    [("sentiment", .jobj []), ("topics", .jarr [.jobj [("name", .jstr "Billing"), ("confidence", .jnum 1)]])]
    [] [.jobj [("name", .jstr "Billing"), ("confidence", .jnum 1)]] [⟨"Billing", 1⟩]
    rfl rfl rfl rfl rfl (by simp [parseTopics, jlookup])

/-! ## Claim C7: classification retry policy -/

/-- C7: each classification call makes at most 3 attempts (its outcome
depends only on the first three attempt outcomes) with exponential
backoff starting at 2s and capped at 10s, applied uniformly to all
raised errors; after the 3rd failed attempt it surfaces a
retry-exhausted error preserving the last underlying error; in
particular the body "not json(((" (with braces) on every attempt yields
a retry-exhausted error whose wrapped cause is the JSON parse failure,
and the engine then counts that ticket in `failed` while the run returns
normally. Each ticket's call runs `retryCall` afresh. -/
theorem classification_retry_policy :
    (∀ att att' : Nat → Except AnalyzeError TicketAnalysisResult,
      (∀ n, 1 ≤ n → n ≤ 3 → att n = att' n) → retryCall att = retryCall att')
    ∧ (∀ (att : Nat → Except AnalyzeError TicketAnalysisResult) err1 err2 err3,
      att 1 = .error err1 → att 2 = .error err2 → att 3 = .error err3 →
      retryCall att = .error ⟨err3⟩)
    ∧ retryWait 1 = 2
    ∧ (∀ n, 2 ≤ retryWait n ∧ retryWait n ≤ 10)
    ∧ (∀ m n, m ≤ n → retryWait m ≤ retryWait n)
    ∧ analyze_ticket_retried (fun _ => .ok [notJsonBody]) = .error ⟨.jsonDecodeError⟩
    ∧ (import_and_analyze_tickets (fun tok _ => if tok = "tok" then .ok [tdA] else .error .network)
        renvNotJson dbEmpty 7).1 = .ok ⟨1, 0, 0, 1⟩ := by
  refine ⟨?_, ?_, by decide, ?_, ?_, by decide, by decide⟩
  · intro att att' h
    have h1 := h 1 (by decide) (by decide)
    have h2 := h 2 (by decide) (by decide)
    have h3 := h 3 (by decide) (by decide)
    unfold retryCall
    rw [h1, h2, h3]
  · intro att err1 err2 err3 h1 h2 h3
    unfold retryCall
    rw [h1, h2, h3]
  · intro n
    refine ⟨Nat.le_max_left _ _, ?_⟩
    exact max_le (by decide) (min_le_right _ _)
  · intro m n h
    exact max_le_max le_rfl (min_le_min (Nat.pow_le_pow_right (by decide) h) le_rfl)

/-- Witness for `classification_retry_policy`: its general conjuncts
applied at concrete attempt functions. -/
theorem classification_retry_policy_witness :
    retryCall attemptsFailThree = retryCall attemptsAllFail
    ∧ retryCall attemptsDistinctErrors = .error ⟨.jsonDecodeError⟩
    ∧ (2 ≤ retryWait 5 ∧ retryWait 5 ≤ 10)
    ∧ retryWait 2 ≤ retryWait 7 := by
  refine ⟨?_, ?_, ?_, ?_⟩
  · refine classification_retry_policy.1 attemptsFailThree attemptsAllFail ?_
    intro n h1 h3
    simp only [attemptsFailThree, attemptsAllFail, if_pos h3]
  · exact classification_retry_policy.2.1 attemptsDistinctErrors .network (.httpStatusError 500)
      .jsonDecodeError rfl rfl rfl
  · exact classification_retry_policy.2.2.2.1 5
  · exact classification_retry_policy.2.2.2.2.1 2 7 (by decide)

/-! ## Claim C5: the days-back time window (corrected) -/

/-- Counterexample to C5: with the three-ticket batch whose createdate
values are now, now minus 2 days and now minus 10 days, a run with
`days_back = 7` imports all 3 tickets — the 10-day-old ticket "C" is
selected too, because `_fetch_recent_tickets` never filters by date
("days_back: Not used currently"). -/
theorem days_back_counterexample :
    (import_and_analyze_tickets apiA renvA dbEmpty 7).1 = .ok ⟨3, 3, 0, 0⟩
    ∧ (import_and_analyze_tickets apiA renvA dbEmpty 7).2.tickets.length = 3
    ∧ ¬ (import_and_analyze_tickets apiA renvA dbEmpty 7).2.tickets.length = 2
    ∧ findTicket (import_and_analyze_tickets apiA renvA dbEmpty 7).2.tickets "C" ≠ none := by
  decide

/-- C5 amended: `days_back` has no effect on selection — the fetch
returns the batch of (up to 20) most recent tickets unfiltered by date
and every fetched ticket is processed; in the three-ticket scenario all
3 tickets (not 2) are selected and imported. -/
theorem days_back_ignored :
    (∀ (api : HubSpotApi) (env : RunEnv) (db : DBState) (d d' : Nat),
      import_and_analyze_tickets api env db d = import_and_analyze_tickets api env db d')
    ∧ (∀ (api : HubSpotApi) (env : RunEnv) (integ : IntegrationRow) (tok : String)
        (s : Session) (d d' : Nat),
      fetch_recent_tickets api env integ tok s d = fetch_recent_tickets api env integ tok s d')
    ∧ (import_and_analyze_tickets apiA renvA dbEmpty 7).1 = .ok ⟨3, 3, 0, 0⟩
    ∧ findTicket (import_and_analyze_tickets apiA renvA dbEmpty 7).2.tickets "C" ≠ none := by
  refine ⟨fun api env db d d' => rfl, fun api env integ tok s d d' => rfl, by decide, by decide⟩

/-! ## Claim C2: per-ticket failure isolation -/

/-- C2: a per-item exception increments `failed` for that item and the
loop continues with the next item; concretely, when classification fails
for ticket B but succeeds for A and C, the run returns normally with
`failed = 1`, and A and C are persisted with sentiment set while B is
persisted without sentiment. -/
theorem per_item_failure_isolation :
    (∀ (step : SourceTicket → LoopState → Except LoopState LoopState) td rest st pst,
      step td st = .error pst →
      import_loop failIncr step (td :: rest) st = import_loop failIncr step rest (failIncr pst))
    ∧ (∀ (st : LoopState), (failIncr st).2.failed = st.2.failed + 1 ∧ (failIncr st).1 = st.1)
    ∧ (import_and_analyze_tickets apiA renvFailB dbEmpty 7).1 = .ok ⟨3, 2, 0, 1⟩
    ∧ (import_and_analyze_tickets apiA renvFailB dbEmpty 7).2.tickets.map
        (fun t => (t.external_id, t.sentiment_score.isSome))
      = [("A", true), ("B", false), ("C", true)] := by
  refine ⟨?_, ?_, by decide, by decide⟩
  · intro step td rest st pst h
    simp [import_loop, h]
  · intro st
    exact ⟨rfl, rfl⟩

/-- Witness for `per_item_failure_isolation`: its loop conjunct applied
to a concrete always-raising step. -/
theorem per_item_failure_isolation_witness :
    import_loop failIncr (fun _ st => .error st) [tdA] ([], ImportResult.zero)
      = import_loop failIncr (fun _ st => .error st) [] (failIncr ([], ImportResult.zero))
    ∧ (failIncr (([], ImportResult.zero) : LoopState)).2.failed = 1 :=
  ⟨per_item_failure_isolation.1 (fun _ st => .error st) tdA [] ([], ImportResult.zero)
      ([], ImportResult.zero) rfl,
    (per_item_failure_isolation.2.1 (([], ImportResult.zero) : LoopState)).1⟩

/-! ## Claim C4: content assembly (corrected) -/

theorem lexLe_refl (a : List Char) : lexLe a a = true := by
  induction a with
  | nil => rfl
  | cons x xs ih => simp [lexLe, ih]

theorem lexLe_total (a b : List Char) : lexLe a b = true ∨ lexLe b a = true := by
  induction a generalizing b with
  | nil => exact Or.inl rfl
  | cons x xs ih =>
    cases b with
    | nil => exact Or.inr rfl
    | cons y ys =>
      by_cases hxy : x = y
      · subst hxy
        rcases ih ys with h | h
        · exact Or.inl (by simp [lexLe, h])
        · exact Or.inr (by simp [lexLe, h])
      · rcases lt_or_gt_of_ne hxy with h | h
        · exact Or.inl (by simp [lexLe, hxy, h])
        · exact Or.inr (by simp [lexLe, Ne.symm hxy, h])

theorem lexLe_trans (a b c : List Char) (hab : lexLe a b = true) (hbc : lexLe b c = true) :
    lexLe a c = true := by
  induction a generalizing b c with
  | nil => rfl
  | cons x xs ih =>
    cases b with
    | nil => simp [lexLe] at hab
    | cons y ys =>
      cases c with
      | nil => simp [lexLe] at hbc
      | cons z zs =>
        by_cases hxy : x = y
        · subst hxy
          simp only [lexLe, if_pos rfl] at hab
          by_cases hyz : x = z
          · subst hyz
            simp only [lexLe, if_pos rfl] at hbc ⊢
            exact ih ys zs hab hbc
          · simp only [lexLe, if_neg hyz] at hbc ⊢
            exact hbc
        · simp only [lexLe, if_neg hxy] at hab
          by_cases hyz : y = z
          · subst hyz
            simp only [lexLe, if_neg hxy]
            exact hab
          · simp only [lexLe, if_neg hyz] at hbc
            have hxz : x < z := lt_trans (of_decide_eq_true hab) (of_decide_eq_true hbc)
            have hxzne : x ≠ z := ne_of_lt hxz
            simp [lexLe, hxzne, hxz]

theorem lexLe_antisymm (a b : List Char) (hab : lexLe a b = true) (hba : lexLe b a = true) :
    a = b := by
  induction a generalizing b with
  | nil =>
    cases b with
    | nil => rfl
    | cons y ys => simp [lexLe] at hba
  | cons x xs ih =>
    cases b with
    | nil => simp [lexLe] at hab
    | cons y ys =>
      by_cases hxy : x = y
      · subst hxy
        simp only [lexLe, if_pos rfl] at hab hba
        rw [ih ys hab hba]
      · simp only [lexLe, if_neg hxy] at hab
        simp only [lexLe, if_neg (Ne.symm hxy)] at hba
        exact absurd (lt_trans (of_decide_eq_true hab) (of_decide_eq_true hba))
          (lt_irrefl x)

theorem sortEmails_sorted (l : List EmailRec) :
    (sortEmailsByTimestamp l).Sorted emailLe := by
  haveI : IsTotal EmailRec emailLe := ⟨fun a b => lexLe_total _ _⟩
  haveI : IsTrans EmailRec emailLe := ⟨fun a b c => lexLe_trans _ _ _⟩
  exact List.sorted_insertionSort emailLe l

theorem sortEmails_perm (l : List EmailRec) : (sortEmailsByTimestamp l).Perm l :=
  List.perm_insertionSort emailLe l

/-- Two sorted lists that are permutations of each other and have
pairwise-distinct sort keys are equal. -/
theorem eq_of_perm_sorted_nodup_keys :
    ∀ {l₁ l₂ : List EmailRec}, l₁.Perm l₂ →
      l₁.Sorted emailLe → l₂.Sorted emailLe →
      (l₁.map emailSortKey).Nodup → l₁ = l₂ := by
  intro l₁
  induction l₁ with
  | nil =>
    intro l₂ hp _ _ _
    exact hp.nil_eq
  | cons a t ih =>
    intro l₂ hp hs1 hs2 hnd
    cases l₂ with
    | nil => exact absurd hp.symm.nil_eq (by simp)
    | cons b t₂ =>
      by_cases hab : a = b
      · subst hab
        have ht := ih hp.cons_inv hs1.of_cons hs2.of_cons (by
          simp only [List.map_cons, List.nodup_cons] at hnd
          exact hnd.2)
        rw [ht]
      · exfalso
        have ha2 : a ∈ t₂ := by
          have := hp.mem_iff.mp (List.mem_cons_self a t)
          simpa [hab] using this
        have hb1 : b ∈ t := by
          have := hp.symm.mem_iff.mp (List.mem_cons_self b t₂)
          simpa [Ne.symm hab] using this
        have h1 : emailLe a b := List.rel_of_sorted_cons hs1 b hb1
        have h2 : emailLe b a := List.rel_of_sorted_cons hs2 a ha2
        have hkey : emailSortKey a = emailSortKey b := lexLe_antisymm _ _ h1 h2
        have hmem : emailSortKey a ∈ t.map emailSortKey :=
          hkey ▸ List.mem_map_of_mem emailSortKey hb1
        simp only [List.map_cons, List.nodup_cons] at hnd
        exact hnd.1 hmem

/-- Counterexample to C4: the assembly is not input-order-insensitive —
two emails sharing the source timestamp "100" but with different content
produce different outputs for the two input orders (the sort is stable,
so ties keep input order). -/
theorem assembly_order_sensitivity_counterexample :
    ([e1, e2] : List EmailRec).Perm [e2, e1]
    ∧ e1.hs_timestamp = e2.hs_timestamp
    ∧ assemble "s" "" [e1, e2] ≠ assemble "s" "" [e2, e1] := by
  refine ⟨?_, by decide, by decide⟩
  exact List.Perm.swap e2 e1 []

set_option maxRecDepth 8192 in
/-- C4 amended: provided the email source timestamps (as sort-key
strings, a missing timestamp keyed "0") are pairwise distinct, assembly
is input-order-insensitive; the sorted thread is ascending by timestamp
key with a missing timestamp treated as earliest, the initial
description comes first, each email gets an "Email N" header with
direction, from, to and subject, and the plain-text body is preferred
with the HTML body used only when plain text is absent (shown on an
explicit three-email assembly). -/
theorem assembly_deterministic_amended :
    (∀ (subject desc : String) (l₁ l₂ : List EmailRec), l₁.Perm l₂ →
      (l₁.map emailSortKey).Nodup →
      assemble subject desc l₁ = assemble subject desc l₂)
    ∧ (∀ l, (sortEmailsByTimestamp l).Sorted emailLe)
    ∧ (∀ l, (sortEmailsByTimestamp l).Perm l)
    ∧ (∀ e : EmailRec, e.hs_timestamp = none → emailSortKey e = "0".data)
    ∧ (∀ e : EmailRec, (e.hs_email_text).getD "" ≠ "" → emailBody e = (e.hs_email_text).getD "")
    ∧ (∀ e : EmailRec, (e.hs_email_text).getD "" = "" → emailBody e = (e.hs_email_html).getD "")
    ∧ assemble "s" "desc" [e3, e1, e4]
      = "Initial Description:\ndesc\n\n\n--- Email Thread ---\n\n\n[Email 1] INCOMING\nFrom: x@a\nTo: y@b\nSubject: s4\n\nfour\n\n[Email 2] INCOMING at 100\nFrom: x@a\nTo: y@b\nSubject: s1\n\none\n\n[Email 3] OUTGOING at 200\nFrom: y@b\nTo: x@a\n\n<p>html</p>" := by
  refine ⟨?_, sortEmails_sorted, sortEmails_perm, ?_, ?_, ?_, by decide⟩
  · intro subject desc l₁ l₂ hp hnd
    unfold assemble
    congr 1
    refine eq_of_perm_sorted_nodup_keys ?_ (sortEmails_sorted l₁) (sortEmails_sorted l₂) ?_
    · exact (sortEmails_perm l₁).trans (hp.trans (sortEmails_perm l₂).symm)
    · exact (((sortEmails_perm l₁).map emailSortKey).symm).nodup hnd
  · intro e he
    simp [emailSortKey, he]
  · intro e he
    simp [emailBody, he]
  · intro e he
    simp [emailBody, he]

/-- Witness for `assembly_deterministic_amended`: two orders of the same
two distinct-timestamp emails assemble identically. -/
theorem assembly_deterministic_amended_witness :
    assemble "s" "d" [e1, e3] = assemble "s" "d" [e3, e1]
    ∧ emailSortKey e4 = "0".data
    ∧ emailBody e1 = "one"
    ∧ emailBody e3 = "<p>html</p>" :=
  ⟨assembly_deterministic_amended.1 "s" "d" [e1, e3] [e3, e1] (by decide) (by decide),
    assembly_deterministic_amended.2.2.2.1 e4 rfl,
    assembly_deterministic_amended.2.2.2.2.1 e1 (by decide),
    assembly_deterministic_amended.2.2.2.2.2.1 e3 (by decide)⟩

/-! ## Claim C6: empty-content behavior (corrected) -/

/-- Counterexample to C6: a fetched ticket with empty assembled content
whose persisted row already carries sentiment does increment the
`skipped` counter (the skip branch tests only the sentiment fields, not
the content), contradicting the universal "neither the failed nor the
skipped counter is incremented". -/
theorem empty_content_counterexample :
    sourceContent envOk tdE = ""
    ∧ (process_ticket envOk integA tdE [rowE] ImportResult.zero).2 = ⟨0, 0, 1, 0⟩
    ∧ ¬ (process_ticket envOk integA tdE [rowE] ImportResult.zero).2.skipped = 0
    ∧ (import_and_analyze_tickets (fun tok _ => if tok = "tok" then .ok [tdE] else .error .network)
        renvA ⟨[rowE], some integA⟩ 7).1 = .ok ⟨0, 0, 1, 0⟩ := by
  decide

/-- C6 amended: for a fetched ticket with empty assembled content whose
persisted row does not already carry sentiment (in particular any new
ticket), the ticket is still upserted — counted in `imported` when new,
with all sentiment fields null — classification is not attempted (the
outcome is independent of the analyzer), and no counter other than
`imported` changes; for an existing sentiment-free row the counters are
untouched entirely. -/
theorem empty_content_amended :
    (∀ (analyzer1 analyzer2 : String → Except (RetryExhausted AnalyzeError) TicketAnalysisResult)
      (thread : String → Except Unit (List EmailRec)) (now : Nat)
      (integ : IntegrationRow) (td : SourceTicket) (tickets : List TicketRow)
      (res : ImportResult) (eid : String),
      td.id = some eid →
      sourceContent ⟨analyzer1, thread, now⟩ td = "" →
      process_ticket ⟨analyzer1, thread, now⟩ integ td tickets res
        = process_ticket ⟨analyzer2, thread, now⟩ integ td tickets res)
    ∧ (∀ (env : TicketEnv) (integ : IntegrationRow) (td : SourceTicket)
        (tickets : List TicketRow) (res : ImportResult) (eid : String),
      td.id = some eid →
      sourceContent env td = "" →
      findTicket tickets eid = none →
      ∃ t, process_ticket env integ td tickets res
          = (tickets ++ [t], { res with imported := res.imported + 1 })
        ∧ t.external_id = eid ∧ t.content = "" ∧ t.sentiment_score = none
        ∧ t.sentiment_confidence = none ∧ t.sentiment_analyzed_at = none)
    ∧ (∀ (env : TicketEnv) (integ : IntegrationRow) (td : SourceTicket)
        (tickets : List TicketRow) (res : ImportResult) (eid : String) (old : TicketRow),
      td.id = some eid →
      sourceContent env td = "" →
      findTicket tickets eid = some old →
      old.sentiment_score = none →
      (process_ticket env integ td tickets res).2 = res) := by
  refine ⟨?_, ?_, ?_⟩
  · intro analyzer1 analyzer2 thread now integ td tickets res eid hid hc
    simp only [sourceContent, sourceSubject, hid, Option.getD_some] at hc
    simp only [process_ticket, hid, hc, sentiment_gate]
    cases findTicket tickets eid <;> simp
  · intro env integ td tickets res eid hid hc hfind
    simp only [sourceContent, sourceSubject, hid, Option.getD_some] at hc
    simp only [process_ticket, hid, hc, hfind, sentiment_gate]
    exact ⟨_, rfl, rfl, rfl, rfl, rfl, rfl⟩
  · intro env integ td tickets res eid old hid hc hfind hsent
    simp only [sourceContent, sourceSubject, hid, Option.getD_some] at hc
    simp only [process_ticket, hid, hc, hfind, sentiment_gate, hsent]
    simp

/-- Witness for `empty_content_amended`: the empty-content ticket E
processed against an empty database and against its sentiment-free row. -/
theorem empty_content_amended_witness :
    process_ticket ⟨analyzerNotJson, threadNone, 1000⟩ integA tdE [] ImportResult.zero
      = process_ticket ⟨analyzerOk, threadNone, 1000⟩ integA tdE [] ImportResult.zero
    ∧ (∃ t, process_ticket envOk integA tdE [] ImportResult.zero = ([t], ⟨1, 0, 0, 0⟩)
        ∧ t.external_id = "E" ∧ t.content = "" ∧ t.sentiment_score = none
        ∧ t.sentiment_confidence = none ∧ t.sentiment_analyzed_at = none)
    ∧ (process_ticket envOk integA tdE [rowE0] ImportResult.zero).2 = ImportResult.zero := by
  refine ⟨?_, ?_, ?_⟩
  · exact empty_content_amended.1 analyzerNotJson analyzerOk threadNone 1000 integA tdE []
      ImportResult.zero "E" rfl (by decide)
  · have h := empty_content_amended.2.1 envOk integA tdE [] ImportResult.zero "E" rfl
      (by decide) rfl
    simpa using h
  · exact empty_content_amended.2.2 envOk integA tdE [rowE0] ImportResult.zero "E" rowE0 rfl
      (by decide) rfl rfl

/-! ## Database-update lemmas -/

theorem findTicket_update_other (tickets : List TicketRow) (eid x : String)
    (f : TicketRow → TicketRow) (hx : x ≠ eid)
    (hf : ∀ t, (f t).external_id = t.external_id) :
    findTicket (updateTicket tickets eid f) x = findTicket tickets x := by
  induction tickets with
  | nil => rfl
  | cons t ts ih =>
    show List.find? (fun u => u.external_id == x)
        ((if (t.external_id == eid) = true then f t else t) :: updateTicket ts eid f)
      = List.find? (fun u => u.external_id == x) (t :: ts)
    by_cases hte : t.external_id = eid
    · have h1 : (if (t.external_id == eid) = true then f t else t) = f t :=
        if_pos (by simp [hte])
      have hfx : ((f t).external_id == x) = false := by
        rw [hf t, hte]
        exact beq_eq_false_iff_ne.mpr (Ne.symm hx)
      have htx : (t.external_id == x) = false := by
        rw [hte]
        exact beq_eq_false_iff_ne.mpr (Ne.symm hx)
      rw [h1]
      simp only [List.find?, hfx, htx]
      exact ih
    · have h1 : (if (t.external_id == eid) = true then f t else t) = t :=
        if_neg (by simp [hte])
      rw [h1]
      by_cases htx : t.external_id = x
      · simp only [List.find?, show (t.external_id == x) = true by simp [htx]]
      · simp only [List.find?, show (t.external_id == x) = false by simp [htx]]
        exact ih

theorem findTicket_update_self (tickets : List TicketRow) (eid : String)
    (f : TicketRow → TicketRow)
    (hf : ∀ t, (f t).external_id = t.external_id) :
    findTicket (updateTicket tickets eid f) eid = (findTicket tickets eid).map f := by
  induction tickets with
  | nil => rfl
  | cons t ts ih =>
    show List.find? (fun u => u.external_id == eid)
        ((if (t.external_id == eid) = true then f t else t) :: updateTicket ts eid f)
      = (List.find? (fun u => u.external_id == eid) (t :: ts)).map f
    by_cases hte : t.external_id = eid
    · have h1 : (if (t.external_id == eid) = true then f t else t) = f t :=
        if_pos (by simp [hte])
      have hfe : ((f t).external_id == eid) = true := by
        rw [hf t, hte]
        exact beq_self_eq_true eid
      rw [h1]
      simp only [List.find?, hfe, show (t.external_id == eid) = true by simp [hte]]
      rfl
    · have h1 : (if (t.external_id == eid) = true then f t else t) = t :=
        if_neg (by simp [hte])
      rw [h1]
      simp only [List.find?, show (t.external_id == eid) = false by simp [hte]]
      exact ih

theorem findTicket_append (tickets : List TicketRow) (t : TicketRow) (x : String) :
    findTicket (tickets ++ [t]) x =
      (findTicket tickets x).or (if (t.external_id == x) = true then some t else none) := by
  simp only [findTicket, List.find?_append]
  congr 1
  by_cases htx : t.external_id = x
  · simp only [List.find?, show (t.external_id == x) = true by simp [htx], if_true]
  · simp only [List.find?, show (t.external_id == x) = false by simp [htx]]
    simp

theorem keepsSentiment_refl (tickets : List TicketRow) : keepsSentiment tickets tickets := by
  intro eid t h hs
  exact ⟨t, h, rfl, rfl, rfl⟩

theorem keepsSentiment_trans {a b c : List TicketRow}
    (h1 : keepsSentiment a b) (h2 : keepsSentiment b c) : keepsSentiment a c := by
  intro eid t h hs
  obtain ⟨t', ht', hsc, hcf, hat⟩ := h1 eid t h hs
  obtain ⟨t'', ht'', hsc', hcf', hat'⟩ := h2 eid t' ht' (by rw [hsc]; exact hs)
  exact ⟨t'', ht'', by rw [hsc', hsc], by rw [hcf', hcf], by rw [hat', hat]⟩

theorem gate_keepsSentiment (env : TicketEnv) (subject content : String) (t : TicketRow)
    (tickets : List TicketRow) (res : ImportResult) (eid : String)
    (hteid : t.external_id = eid)
    (ht : findTicket tickets eid = some t) :
    keepsSentiment tickets (sentiment_gate env subject content t tickets res).1 := by
  unfold sentiment_gate
  split
  · next hcond =>
    split
    · intro x u hu hs
      by_cases hxe : x = eid
      · subst hxe
        rw [ht] at hu
        cases hu
        exact absurd hcond.1 hs
      · refine ⟨u, ?_, rfl, rfl, rfl⟩
        rw [hteid, findTicket_update_other]
        · exact hu
        · exact hxe
        · intro v
          rfl
    · exact keepsSentiment_refl tickets
  · split
    · exact keepsSentiment_refl tickets
    · exact keepsSentiment_refl tickets

theorem process_keepsSentiment (env : TicketEnv) (integ : IntegrationRow)
    (td : SourceTicket) (tickets : List TicketRow) (res : ImportResult) :
    keepsSentiment tickets (process_ticket env integ td tickets res).1 := by
  unfold process_ticket
  split
  · exact keepsSentiment_refl tickets
  · next external_id _ =>
    split
    · next existing_ticket hfind =>
      have heid : existing_ticket.external_id = external_id := by
        have := List.find?_some hfind
        simpa using this
      refine keepsSentiment_trans ?_ (gate_keepsSentiment _ _ _ _ _ _ external_id ?_ ?_)
      · intro eid u hu hs
        by_cases hxe : eid = external_id
        · subst hxe
          rw [findTicket_update_self]
          · rw [hu]
            exact ⟨_, rfl, rfl, rfl, rfl⟩
          · intro v
            rfl
        · refine ⟨u, ?_, rfl, rfl, rfl⟩
          rw [findTicket_update_other]
          · exact hu
          · exact hxe
          · intro v
            rfl
      · exact heid
      · rw [findTicket_update_self]
        · rw [hfind]
          rfl
        · intro v
          rfl
    · next hfind =>
      refine keepsSentiment_trans ?_ (gate_keepsSentiment _ _ _ _ _ _ external_id rfl ?_)
      · intro eid u hu hs
        refine ⟨u, ?_, rfl, rfl, rfl⟩
        rw [findTicket_append, hu]
        rfl
      · rw [findTicket_append, hfind]
        simp

theorem loop_keepsSentiment (env : TicketEnv) (integ : IntegrationRow)
    (batch : List SourceTicket) (st : LoopState) :
    keepsSentiment st.1 (import_loop failIncr (engineStep env integ) batch st).1 := by
  induction batch generalizing st with
  | nil => exact keepsSentiment_refl st.1
  | cons td rest ih =>
    simp only [import_loop, engineStep]
    exact keepsSentiment_trans (process_keepsSentiment env integ td st.1 st.2) (ih _)

/-! ## Run-level reduction lemmas -/

/-- When the first fetch succeeds and the final commit fails, the run
raises and the durable state is exactly the initial database. -/
theorem run_commit_fail_eq (api : HubSpotApi) (env : RunEnv) (db : DBState)
    (integ : IntegrationRow) (tok : String) (batch : List SourceTicket) (d : Nat)
    (hdb : db.integration = some integ)
    (hst : integ.status = IntegrationStatus.ACTIVE)
    (htok : integ.credentials.access_token = some tok)
    (hapi : api tok ⟨20, "createdate", "DESCENDING"⟩ = .ok batch)
    (hfc : env.finalCommitOk = false) :
    import_and_analyze_tickets api env db d = (.error .commitFailed, db) := by
  simp only [import_and_analyze_tickets, fetch_recent_tickets, search_tickets, hdb, hst, htok,
    show (20 : Nat) ⊓ 100 = 20 by norm_num, hapi, sessionCommit, hfc]
  rfl

/-- When the first fetch succeeds and the final commit succeeds, the run
returns the loop counters and the durable state is the loop result over
the initial tickets, with the integration unchanged. -/
theorem run_commit_ok_eq (api : HubSpotApi) (env : RunEnv) (db : DBState)
    (integ : IntegrationRow) (tok : String) (batch : List SourceTicket) (d : Nat)
    (hdb : db.integration = some integ)
    (hst : integ.status = IntegrationStatus.ACTIVE)
    (htok : integ.credentials.access_token = some tok)
    (hapi : api tok ⟨20, "createdate", "DESCENDING"⟩ = .ok batch)
    (hfc : env.finalCommitOk = true) :
    import_and_analyze_tickets api env db d =
      (.ok (import_loop failIncr (engineStep env.ticketEnv integ) batch
          (db.tickets, ImportResult.zero)).2,
        ⟨(import_loop failIncr (engineStep env.ticketEnv integ) batch
          (db.tickets, ImportResult.zero)).1, some integ⟩) := by
  simp only [import_and_analyze_tickets, fetch_recent_tickets, search_tickets, hdb, hst, htok,
    show (20 : Nat) ⊓ 100 = 20 by norm_num, hapi, sessionCommit, hfc]
  rfl

/-- Publishing a commit: the resulting session duplicates the staged
state. -/
theorem sessionCommit_ok_eq {ok : Bool} {s s2 : Session}
    (h : sessionCommit ok s = .ok s2) : s2 = ⟨s.staged, s.staged⟩ := by
  unfold sessionCommit at h
  split at h
  · cases h
    rfl
  · cases h

/-- The fetch step never changes the tickets of the session (staged or
durable): only the integration row can be updated and committed. -/
theorem fetch_session_tickets (api : HubSpotApi) (env : RunEnv) (integ : IntegrationRow)
    (tok : String) (db : DBState) (d : Nat) :
    (fetch_recent_tickets api env integ tok ⟨db, db⟩ d).2.staged.tickets = db.tickets
    ∧ (fetch_recent_tickets api env integ tok ⟨db, db⟩ d).2.durable.tickets = db.tickets := by
  unfold fetch_recent_tickets
  cases hmc : env.midCommitOk with
  | false =>
    simp only [hmc, sessionCommit, Bool.false_eq_true, if_false]
    repeat' split
    all_goals exact ⟨rfl, rfl⟩
  | true =>
    simp only [hmc, sessionCommit, if_true]
    repeat' split
    all_goals exact ⟨rfl, rfl⟩

/-- C1 core invariant at run level: a run never removes a ticket row and
never changes the sentiment fields of a row that already has them. -/
theorem run_keepsSentiment (api : HubSpotApi) (env : RunEnv) (db : DBState) (d : Nat) :
    keepsSentiment db.tickets (import_and_analyze_tickets api env db d).2.tickets := by
  simp only [import_and_analyze_tickets]
  split
  · exact keepsSentiment_refl _
  · next integration heq =>
    split
    · exact keepsSentiment_refl _
    · split
      · exact keepsSentiment_refl _
      · next access_token htok =>
        split
        · next e s1 hfetch =>
          have h := (fetch_session_tickets api env integration access_token db d).2
          rw [hfetch] at h
          rw [h]
          exact keepsSentiment_refl _
        · next tickets_data integ1 s1 hfetch =>
          have hstag := (fetch_session_tickets api env integration access_token db d).1
          have hdur := (fetch_session_tickets api env integration access_token db d).2
          rw [hfetch] at hstag hdur
          split
          · next s3 hcommit =>
            rw [sessionCommit_ok_eq hcommit]
            show keepsSentiment db.tickets (import_loop failIncr _ tickets_data
              (s1.staged.tickets, ImportResult.zero)).1
            rw [← hstag]
            exact loop_keepsSentiment env.ticketEnv integ1 tickets_data
              (s1.staged.tickets, ImportResult.zero)
          · rw [← hdur]
            exact keepsSentiment_refl _

/-! ## Rows with other external ids are untouched -/

theorem gate_other_id (env : TicketEnv) (subject content : String) (t : TicketRow)
    (tickets : List TicketRow) (res : ImportResult) (x : String)
    (hne : t.external_id ≠ x) :
    findTicket (sentiment_gate env subject content t tickets res).1 x = findTicket tickets x := by
  unfold sentiment_gate
  split
  · split
    · refine findTicket_update_other tickets t.external_id x _ (Ne.symm hne) ?_
      intro v
      rfl
    · rfl
  · split
    · rfl
    · rfl

theorem process_other_id (env : TicketEnv) (integ : IntegrationRow) (td : SourceTicket)
    (tickets : List TicketRow) (res : ImportResult) (x : String)
    (h : ∀ eid, td.id = some eid → eid ≠ x) :
    findTicket (process_ticket env integ td tickets res).1 x = findTicket tickets x := by
  unfold process_ticket
  split
  · rfl
  · next external_id heq =>
    have hne : external_id ≠ x := h external_id heq
    split
    · next existing_ticket hfind =>
      have heid : existing_ticket.external_id = external_id := by
        have := List.find?_some hfind
        simpa using this
      rw [gate_other_id]
      · refine findTicket_update_other tickets external_id x _ (Ne.symm hne) ?_
        intro v
        rfl
      · show existing_ticket.external_id ≠ x
        rw [heid]
        exact hne
    · rw [gate_other_id]
      · rw [findTicket_append]
        rw [show ((if ((_ : TicketRow).external_id == x) = true then some _ else none)
            : Option TicketRow) = none from if_neg (by simp [hne])]
        exact Option.or_none
      · exact hne

theorem loop_other_ids (env : TicketEnv) (integ : IntegrationRow)
    (batch : List SourceTicket) (st : LoopState) (x : String)
    (h : ∀ td ∈ batch, ∀ eid, td.id = some eid → eid ≠ x) :
    findTicket (import_loop failIncr (engineStep env integ) batch st).1 x
      = findTicket st.1 x := by
  induction batch generalizing st with
  | nil => rfl
  | cons td rest ih =>
    simp only [import_loop, engineStep]
    rw [ih _ (fun td' hmem => h td' (List.mem_cons_of_mem td hmem))]
    exact process_other_id env integ td st.1 st.2 x (h td (List.mem_cons_self td rest))

/-! ## Claim C3: commit atomicity -/

/-- C3: all per-item writes of a run stay staged until every item is
processed and one final commit publishes them: if that commit fails, the
run re-raises and the durable database is exactly the initial one
(nothing partial persists); if it succeeds, the durable database is the
full loop result over every fetched item. Stated for runs whose fetch
succeeds directly (an auth failure triggers the separate credential
commit of the token-refresh sub-flow, covered by C8). -/
theorem commit_atomicity :
    ∀ (api : HubSpotApi) (env : RunEnv) (db : DBState) (integ : IntegrationRow)
      (tok : String) (batch : List SourceTicket) (d : Nat),
      db.integration = some integ →
      integ.status = IntegrationStatus.ACTIVE →
      integ.credentials.access_token = some tok →
      api tok ⟨20, "createdate", "DESCENDING"⟩ = .ok batch →
      (env.finalCommitOk = false →
          import_and_analyze_tickets api env db d = (.error .commitFailed, db))
        ∧ (env.finalCommitOk = true →
          import_and_analyze_tickets api env db d =
            (.ok (import_loop failIncr (engineStep env.ticketEnv integ) batch
                (db.tickets, ImportResult.zero)).2,
              ⟨(import_loop failIncr (engineStep env.ticketEnv integ) batch
                (db.tickets, ImportResult.zero)).1, some integ⟩)) :=
  fun api env db integ tok batch d hdb hst htok hapi =>
    ⟨fun hfc => run_commit_fail_eq api env db integ tok batch d hdb hst htok hapi hfc,
      fun hfc => run_commit_ok_eq api env db integ tok batch d hdb hst htok hapi hfc⟩

/-- Witness for `commit_atomicity`: the concrete three-ticket scenario,
once with a failing final commit (durable state unchanged) and once with
a succeeding one (durable state is the loop result). -/
theorem commit_atomicity_witness :
    import_and_analyze_tickets apiA renvNoCommit dbEmpty 7 = (.error .commitFailed, dbEmpty)
    ∧ import_and_analyze_tickets apiA renvA dbEmpty 7
      = (.ok (import_loop failIncr (engineStep renvA.ticketEnv integA) [tdA, tdB, tdC]
            (dbEmpty.tickets, ImportResult.zero)).2,
          ⟨(import_loop failIncr (engineStep renvA.ticketEnv integA) [tdA, tdB, tdC]
            (dbEmpty.tickets, ImportResult.zero)).1, some integA⟩) :=
  ⟨(commit_atomicity apiA renvNoCommit dbEmpty integA "tok" [tdA, tdB, tdC] 7 rfl rfl rfl
      (by decide)).1 rfl,
    (commit_atomicity apiA renvA dbEmpty integA "tok" [tdA, tdB, tdC] 7 rfl rfl rfl
      (by decide)).2 rfl⟩

/-! ## Claim C8: token-refresh sub-flow -/

/-- C8: when the batch fetch gets a 401, the engine refreshes the
credentials, persists them on the Integration row with an immediate
separate commit — so they are durable even if the retried fetch fails or
the rest of the run later rolls back at the final commit — and retries
the same search request exactly once with the new token (a second
failure propagates, with no further refresh); any non-authorization fetch
failure propagates unretried and leaves the database untouched,
independent of the refresh oracle. -/
theorem token_refresh_subflow :
    (∀ (api : HubSpotApi) (env : RunEnv) (db : DBState) (integ : IntegrationRow)
        (tok rt tok2 : String) (newCreds : Creds) (d : Nat),
      db.integration = some integ →
      integ.status = IntegrationStatus.ACTIVE →
      integ.credentials.access_token = some tok →
      api tok ⟨20, "createdate", "DESCENDING"⟩ = .error (.httpStatusError 401) →
      integ.credentials.refresh_token = some rt →
      env.refreshOutcome = .ok newCreds →
      env.midCommitOk = true →
      newCreds.access_token = some tok2 →
      (∀ e2, api tok2 ⟨20, "createdate", "DESCENDING"⟩ = .error e2 →
        import_and_analyze_tickets api env db d =
          (.error (.fetchFailed e2),
            ⟨db.tickets, some { integ with credentials := newCreds, last_synced_at := some env.ticketEnv.now }⟩))
      ∧ (∀ batch, api tok2 ⟨20, "createdate", "DESCENDING"⟩ = .ok batch →
          env.finalCommitOk = false →
        import_and_analyze_tickets api env db d =
          (.error .commitFailed,
            ⟨db.tickets, some { integ with credentials := newCreds, last_synced_at := some env.ticketEnv.now }⟩))
      ∧ (∀ batch, api tok2 ⟨20, "createdate", "DESCENDING"⟩ = .ok batch →
          env.finalCommitOk = true →
        import_and_analyze_tickets api env db d =
          (.ok (import_loop failIncr (engineStep env.ticketEnv
              { integ with credentials := newCreds, last_synced_at := some env.ticketEnv.now }) batch
              (db.tickets, ImportResult.zero)).2,
            ⟨(import_loop failIncr (engineStep env.ticketEnv
              { integ with credentials := newCreds, last_synced_at := some env.ticketEnv.now }) batch
              (db.tickets, ImportResult.zero)).1,
              some { integ with credentials := newCreds, last_synced_at := some env.ticketEnv.now }⟩)))
    ∧ (∀ (api : HubSpotApi) (env : RunEnv) (db : DBState) (integ : IntegrationRow)
        (tok : String) (d : Nat) (e : FetchError),
      db.integration = some integ →
      integ.status = IntegrationStatus.ACTIVE →
      integ.credentials.access_token = some tok →
      api tok ⟨20, "createdate", "DESCENDING"⟩ = .error e →
      (∀ c, e = .httpStatusError c → c ≠ 401) →
      import_and_analyze_tickets api env db d = (.error (.fetchFailed e), db)) := by
  constructor
  · intro api env db integ tok rt tok2 newCreds d hdb hst htok hapi hrt hrefresh hmc htok2
    refine ⟨?_, ?_, ?_⟩
    · intro e2 hapi2
      simp only [import_and_analyze_tickets, fetch_recent_tickets, search_tickets, hdb, hst,
        htok, show (20 : Nat) ⊓ 100 = 20 by norm_num, hapi, hrt, hrefresh, sessionCommit, hmc,
        htok2, hapi2]
      rfl
    · intro batch hapi2 hfc
      simp only [import_and_analyze_tickets, fetch_recent_tickets, search_tickets, hdb, hst,
        htok, show (20 : Nat) ⊓ 100 = 20 by norm_num, hapi, hrt, hrefresh, sessionCommit, hmc,
        htok2, hapi2, hfc]
      rfl
    · intro batch hapi2 hfc
      simp only [import_and_analyze_tickets, fetch_recent_tickets, search_tickets, hdb, hst,
        htok, show (20 : Nat) ⊓ 100 = 20 by norm_num, hapi, hrt, hrefresh, sessionCommit, hmc,
        htok2, hapi2, hfc]
      rfl
  · intro api env db integ tok d e hdb hst htok hapi hne
    cases e with
    | network =>
      simp only [import_and_analyze_tickets, fetch_recent_tickets, search_tickets, hdb, hst,
        htok, show (20 : Nat) ⊓ 100 = 20 by norm_num, hapi]
      rfl
    | httpStatusError c =>
      have hc : c ≠ 401 := hne c rfl
      simp only [import_and_analyze_tickets, fetch_recent_tickets, search_tickets, hdb, hst,
        htok, show (20 : Nat) ⊓ 100 = 20 by norm_num, hapi, if_neg hc]
      rfl

/-- Witness for `token_refresh_subflow`: concrete 401 scenarios — a
failing retry, a successful retry with failing final commit (credentials
survive), and a non-auth 500 that propagates untouched. -/
theorem token_refresh_subflow_witness :
    import_and_analyze_tickets api401Fail (renvRefresh true) dbOld 7
      = (.error (.fetchFailed .network),
          ⟨[], some { integOld with credentials := credsNew, last_synced_at := some 1000 }⟩)
    ∧ import_and_analyze_tickets api401Ok (renvRefresh false) dbOld 7
      = (.error .commitFailed,
          ⟨[], some { integOld with credentials := credsNew, last_synced_at := some 1000 }⟩)
    ∧ import_and_analyze_tickets api500 renvA dbEmpty 7
      = (.error (.fetchFailed (.httpStatusError 500)), dbEmpty) := by
  refine ⟨?_, ?_, ?_⟩
  · exact (token_refresh_subflow.1 api401Fail (renvRefresh true) dbOld integOld "tokOld" "rtok"
      "tokNew" credsNew 7 rfl rfl rfl (by decide) rfl rfl rfl rfl).1 .network (by decide)
  · exact (token_refresh_subflow.1 api401Ok (renvRefresh false) dbOld integOld "tokOld" "rtok"
      "tokNew" credsNew 7 rfl rfl rfl (by decide) rfl rfl rfl rfl).2.1 [tdA] (by decide) rfl
  · exact token_refresh_subflow.2 api500 renvA dbEmpty integA "tok" 7 (.httpStatusError 500)
      rfl rfl rfl rfl (fun c hc => by injection hc with h; rw [← h]; decide)

/-! ## Per-item characterization for the idempotence argument -/

theorem process_id_none (env : TicketEnv) (integ : IntegrationRow) (td : SourceTicket)
    (tickets : List TicketRow) (res : ImportResult) (hid : td.id = none) :
    process_ticket env integ td tickets res = (tickets, { res with failed := res.failed + 1 }) := by
  simp [process_ticket, hid]

/-- Processing a ticket whose row does not exist yet: a row for its id is
created, carrying sentiment exactly when the content is non-empty and
the classification call succeeds; `analyzed` grows accordingly. -/
theorem process_fresh (env : TicketEnv) (integ : IntegrationRow) (td : SourceTicket)
    (tickets : List TicketRow) (res : ImportResult) (eid : String)
    (hid : td.id = some eid) (hfind : findTicket tickets eid = none) :
    (∃ t, findTicket (process_ticket env integ td tickets res).1 eid = some t
      ∧ ((t.sentiment_score ≠ none) ↔
          (sourceContent env td ≠ "" ∧ analysisOk env td = true)))
    ∧ (process_ticket env integ td tickets res).2.analyzed
        = res.analyzed + (if analyzable env td = true then 1 else 0) := by
  have hcontent : sourceContent env td
      = build_ticket_content ((td.properties.subject).getD "No Subject")
        ((td.properties.content).getD "") (fetch_email_thread env.thread eid) := by
    simp [sourceContent, sourceSubject, hid]
  have hprompt : sourcePrompt env td
      = "Subject: " ++ (td.properties.subject).getD "No Subject" ++ "\n\n"
        ++ build_ticket_content ((td.properties.subject).getD "No Subject")
          ((td.properties.content).getD "") (fetch_email_thread env.thread eid) := by
    simp [sourcePrompt, sourceSubject, hid, hcontent]
  have hana : analyzable env td = ((sourceContent env td != "") && analysisOk env td) := by
    simp [analyzable, hid]
  simp only [process_ticket, hid, hfind]
  unfold sentiment_gate
  by_cases hce : sourceContent env td = ""
  · have hce' : build_ticket_content ((td.properties.subject).getD "No Subject")
        ((td.properties.content).getD "") (fetch_email_thread env.thread eid) = "" := by
      rw [← hcontent]
      exact hce
    rw [hce']
    rw [if_neg (by simp)]
    rw [if_neg (by simp)]
    constructor
    · rw [findTicket_append, hfind, Option.none_or, if_pos (by simp)]
      exact ⟨_, rfl, by simp [hce]⟩
    · simp [hana, hce]
  · have hce' : build_ticket_content ((td.properties.subject).getD "No Subject")
        ((td.properties.content).getD "") (fetch_email_thread env.thread eid) ≠ "" := by
      rw [← hcontent]
      exact hce
    rw [if_pos ⟨rfl, hce'⟩]
    cases han : env.analyzer (sourcePrompt env td) with
    | ok r =>
      rw [hprompt] at han
      rw [han]
      have hok : analysisOk env td = true := by
        unfold analysisOk
        rw [hprompt, han]
      constructor
      · rw [findTicket_update_self]
        · rw [findTicket_append, hfind, Option.none_or, if_pos (by simp)]
          exact ⟨_, rfl, by simp [hce, hok]⟩
        · intro v
          rfl
      · simp [hana, hok, bne_iff_ne, hce]
    | error err =>
      rw [hprompt] at han
      rw [han]
      have hok : analysisOk env td = false := by
        unfold analysisOk
        rw [hprompt, han]
      constructor
      · rw [findTicket_append, hfind, Option.none_or, if_pos (by simp)]
        exact ⟨_, rfl, by simp [hok]⟩
      · simp [hana, hok]

/-- Re-processing a ticket whose row exists and is characterized by the
first run: nothing is imported, nothing is analyzed, `skipped` counts
exactly the analyzable items, and the row keeps its sentiment value. -/
theorem process_revisit (env : TicketEnv) (integ : IntegrationRow) (td : SourceTicket)
    (tickets : List TicketRow) (res : ImportResult) (eid : String) (t : TicketRow)
    (hid : td.id = some eid) (hfind : findTicket tickets eid = some t)
    (hiff : (t.sentiment_score ≠ none) ↔
      (sourceContent env td ≠ "" ∧ analysisOk env td = true)) :
    ((process_ticket env integ td tickets res).2.imported = res.imported
      ∧ (process_ticket env integ td tickets res).2.analyzed = res.analyzed
      ∧ (process_ticket env integ td tickets res).2.skipped
          = res.skipped + (if analyzable env td = true then 1 else 0))
    ∧ (∃ t', findTicket (process_ticket env integ td tickets res).1 eid = some t'
        ∧ t'.sentiment_score = t.sentiment_score) := by
  have hcontent : sourceContent env td
      = build_ticket_content ((td.properties.subject).getD "No Subject")
        ((td.properties.content).getD "") (fetch_email_thread env.thread eid) := by
    simp [sourceContent, sourceSubject, hid]
  have hprompt : sourcePrompt env td
      = "Subject: " ++ (td.properties.subject).getD "No Subject" ++ "\n\n"
        ++ build_ticket_content ((td.properties.subject).getD "No Subject")
          ((td.properties.content).getD "") (fetch_email_thread env.thread eid) := by
    simp [sourcePrompt, sourceSubject, hid, hcontent]
  have hana : analyzable env td = ((sourceContent env td != "") && analysisOk env td) := by
    simp [analyzable, hid]
  simp only [process_ticket, hid, hfind]
  unfold sentiment_gate
  by_cases hscore : t.sentiment_score = none
  · have hnok : ¬ (sourceContent env td ≠ "" ∧ analysisOk env td = true) := by
      intro h
      exact (by simp [hscore] : ¬ t.sentiment_score ≠ none) (hiff.mpr h)
    by_cases hce : sourceContent env td = ""
    · have hce' : build_ticket_content ((td.properties.subject).getD "No Subject")
          ((td.properties.content).getD "") (fetch_email_thread env.thread eid) = "" := by
        rw [← hcontent]
        exact hce
      rw [hce']
      rw [if_neg (fun h => h.2 rfl)]
      rw [if_neg (by simp [hscore])]
      refine ⟨⟨rfl, rfl, by simp [hana, hce]⟩, ?_⟩
      rw [findTicket_update_self]
      · rw [hfind]
        exact ⟨_, rfl, rfl⟩
      · intro v
        rfl
    · have hok : analysisOk env td = false := by
        by_cases h : analysisOk env td = true
        · exact absurd ⟨hce, h⟩ hnok
        · simpa using h
      have hce' : build_ticket_content ((td.properties.subject).getD "No Subject")
          ((td.properties.content).getD "") (fetch_email_thread env.thread eid) ≠ "" := by
        rw [← hcontent]
        exact hce
      rw [if_pos ⟨hscore, hce'⟩]
      have han : ∃ e, env.analyzer (sourcePrompt env td) = .error e := by
        revert hok
        unfold analysisOk
        cases env.analyzer (sourcePrompt env td) with
        | ok r => simp
        | error e => exact fun _ => ⟨e, rfl⟩
      obtain ⟨e, han⟩ := han
      rw [hprompt] at han
      rw [han]
      refine ⟨⟨rfl, rfl, by simp [hana, hok]⟩, ?_⟩
      rw [findTicket_update_self]
      · rw [hfind]
        exact ⟨_, rfl, rfl⟩
      · intro v
        rfl
  · obtain ⟨hce, hok⟩ := hiff.mp hscore
    rw [if_neg (fun h => hscore h.1)]
    rw [if_pos hscore]
    refine ⟨⟨rfl, rfl, by simp [hana, hok, bne_iff_ne, hce]⟩, ?_⟩
    rw [findTicket_update_self]
    · rw [hfind]
      exact ⟨_, rfl, rfl⟩
    · intro v
      rfl

/-- First run over a batch of unseen, id-distinct tickets: every item
with an id ends up with a row whose sentiment is set exactly when its
content is non-empty and its classification succeeded, and `analyzed`
counts exactly the analyzable items. -/
theorem loop_fresh (env : TicketEnv) (integ : IntegrationRow) :
    ∀ (batch : List SourceTicket) (st : LoopState),
      (batch.filterMap SourceTicket.id).Nodup →
      (∀ td ∈ batch, ∀ eid, td.id = some eid → findTicket st.1 eid = none) →
      (∀ td ∈ batch, ∀ eid, td.id = some eid →
        ∃ t, findTicket (import_loop failIncr (engineStep env integ) batch st).1 eid = some t
          ∧ ((t.sentiment_score ≠ none) ↔
              (sourceContent env td ≠ "" ∧ analysisOk env td = true)))
      ∧ (import_loop failIncr (engineStep env integ) batch st).2.analyzed
          = st.2.analyzed + batch.countP (fun td => analyzable env td) := by
  intro batch
  induction batch with
  | nil =>
    intro st hnd hfresh
    exact ⟨fun td h => absurd h (List.not_mem_nil td), by simp [import_loop]⟩
  | cons td rest ih =>
    intro st hnd hfresh
    simp only [import_loop, engineStep]
    cases hid : td.id with
    | none =>
      rw [process_id_none env integ td st.1 st.2 hid]
      have hnd' : (rest.filterMap SourceTicket.id).Nodup := by
        simpa [List.filterMap_cons, hid] using hnd
      obtain ⟨hrow, hcnt⟩ := ih (st.1, { st.2 with failed := st.2.failed + 1 }) hnd'
        (fun td' hm eid hid' => hfresh td' (List.mem_cons_of_mem _ hm) eid hid')
      constructor
      · intro td' hm eid hid'
        rcases List.mem_cons.mp hm with rfl | hm'
        · rw [hid] at hid'
          cases hid'
        · exact hrow td' hm' eid hid'
      · rw [hcnt]
        simp [List.countP_cons, analyzable, hid]
    | some eid =>
      have hfreshtd : findTicket st.1 eid = none :=
        hfresh td (List.mem_cons_self _ _) eid hid
      obtain ⟨⟨trow, hrowfind, hrowiff⟩, hstepcnt⟩ :=
        process_fresh env integ td st.1 st.2 eid hid hfreshtd
      have hndsplit : eid ∉ rest.filterMap SourceTicket.id
          ∧ (rest.filterMap SourceTicket.id).Nodup := by
        have h := hnd
        rw [List.filterMap_cons, hid] at h
        exact List.nodup_cons.mp h
      have hfresh' : ∀ td' ∈ rest, ∀ eid', td'.id = some eid' →
          findTicket (process_ticket env integ td st.1 st.2).1 eid' = none := by
        intro td' hm eid' hid'
        have hne : eid' ≠ eid := by
          intro h
          subst h
          exact hndsplit.1 (List.mem_filterMap.mpr ⟨td', hm, hid'⟩)
        rw [process_other_id env integ td st.1 st.2 eid' (by
          intro e0 he0
          rw [hid] at he0
          cases he0
          exact Ne.symm hne)]
        exact hfresh td' (List.mem_cons_of_mem _ hm) eid' hid'
      obtain ⟨hrow, hcnt⟩ := ih (process_ticket env integ td st.1 st.2) hndsplit.2 hfresh'
      constructor
      · intro td' hm eid' hid'
        rcases List.mem_cons.mp hm with rfl | hm'
        · rw [hid] at hid'
          cases hid'
          refine ⟨trow, ?_, hrowiff⟩
          rw [loop_other_ids env integ rest (process_ticket env integ td' st.1 st.2) eid (by
            intro td2 hm2 eid2 hid2
            intro h
            subst h
            exact hndsplit.1 (List.mem_filterMap.mpr ⟨td2, hm2, hid2⟩))]
          exact hrowfind
        · exact hrow td' hm' eid' hid'
      · rw [hcnt, hstepcnt]
        simp only [List.countP_cons]
        omega

/-- Second run over an already-characterized batch: nothing imported,
nothing analyzed, and `skipped` counts exactly the analyzable items. -/
theorem loop_revisit (env : TicketEnv) (integ : IntegrationRow) :
    ∀ (batch : List SourceTicket) (st : LoopState),
      (∀ td ∈ batch, ∀ eid, td.id = some eid →
        ∃ t, findTicket st.1 eid = some t
          ∧ ((t.sentiment_score ≠ none) ↔
              (sourceContent env td ≠ "" ∧ analysisOk env td = true))) →
      (import_loop failIncr (engineStep env integ) batch st).2.imported = st.2.imported
      ∧ (import_loop failIncr (engineStep env integ) batch st).2.analyzed = st.2.analyzed
      ∧ (import_loop failIncr (engineStep env integ) batch st).2.skipped
          = st.2.skipped + batch.countP (fun td => analyzable env td) := by
  intro batch
  induction batch with
  | nil =>
    intro st hchar
    simp [import_loop]
  | cons td rest ih =>
    intro st hchar
    simp only [import_loop, engineStep]
    cases hid : td.id with
    | none =>
      rw [process_id_none env integ td st.1 st.2 hid]
      obtain ⟨h1, h2, h3⟩ := ih (st.1, { st.2 with failed := st.2.failed + 1 })
        (fun td' hm eid hid' => hchar td' (List.mem_cons_of_mem _ hm) eid hid')
      refine ⟨h1, h2, ?_⟩
      rw [h3]
      simp [List.countP_cons, analyzable, hid]
    | some eid =>
      obtain ⟨t, hfind, hiff⟩ := hchar td (List.mem_cons_self _ _) eid hid
      obtain ⟨⟨him, han, hsk⟩, t', hfind', hscore'⟩ :=
        process_revisit env integ td st.1 st.2 eid t hid hfind hiff
      have hchar' : ∀ td' ∈ rest, ∀ eid', td'.id = some eid' →
          ∃ u, findTicket (process_ticket env integ td st.1 st.2).1 eid' = some u
            ∧ ((u.sentiment_score ≠ none) ↔
                (sourceContent env td' ≠ "" ∧ analysisOk env td' = true)) := by
        intro td' hm eid' hid'
        obtain ⟨u, hu, hiffu⟩ := hchar td' (List.mem_cons_of_mem _ hm) eid' hid'
        by_cases he : eid' = eid
        · subst he
          rw [hfind] at hu
          cases hu
          refine ⟨t', hfind', ?_⟩
          rw [hscore']
          exact hiffu
        · refine ⟨u, ?_, hiffu⟩
          rw [process_other_id env integ td st.1 st.2 eid' (by
            intro e0 he0
            rw [hid] at he0
            cases he0
            exact Ne.symm he)]
          exact hu
      obtain ⟨h1, h2, h3⟩ := ih (process_ticket env integ td st.1 st.2) hchar'
      refine ⟨?_, ?_, ?_⟩
      · rw [h1, him]
      · rw [h2, han]
      · rw [h3, hsk]
        simp only [List.countP_cons]
        omega

/-! ## Claim C1: idempotence and at-most-once analysis -/

/-- C1: (at-most-once) any import run keeps every row whose sentiment
fields are already set, with exactly those sentiment values — regardless
of upstream content changes and of the analyzer (the run environment is
universally quantified); (idempotence) re-running the import on an
unchanged batch right after a committed first run from an empty ticket
table returns `imported = 0`, `analyzed = 0`, and `skipped = N` where
`N` is the number of tickets analyzed by the first run. -/
theorem idempotent_reimport :
    (∀ (api : HubSpotApi) (env : RunEnv) (db : DBState) (d : Nat),
      keepsSentiment db.tickets (import_and_analyze_tickets api env db d).2.tickets)
    ∧ (∀ (api : HubSpotApi) (env : RunEnv) (db : DBState) (integ : IntegrationRow)
        (tok : String) (batch : List SourceTicket) (d : Nat) (res1 : ImportResult)
        (db1 : DBState),
      db.integration = some integ →
      integ.status = IntegrationStatus.ACTIVE →
      integ.credentials.access_token = some tok →
      api tok ⟨20, "createdate", "DESCENDING"⟩ = .ok batch →
      (batch.filterMap SourceTicket.id).Nodup →
      db.tickets = [] →
      env.finalCommitOk = true →
      import_and_analyze_tickets api env db d = (.ok res1, db1) →
      ∃ res2 db2, import_and_analyze_tickets api env db1 d = (.ok res2, db2)
        ∧ res2.imported = 0 ∧ res2.analyzed = 0 ∧ res2.skipped = res1.analyzed) := by
  refine ⟨run_keepsSentiment, ?_⟩
  intro api env db integ tok batch d res1 db1 hdb hst htok hapi hnd hdbt hfc hrun1
  have h1 := run_commit_ok_eq api env db integ tok batch d hdb hst htok hapi hfc
  rw [hrun1] at h1
  simp only [Prod.mk.injEq, Except.ok.injEq] at h1
  obtain ⟨hres1, hdb1⟩ := h1
  subst hres1
  subst hdb1
  obtain ⟨hrows, hcnt⟩ := loop_fresh env.ticketEnv integ batch (db.tickets, ImportResult.zero)
    hnd (by
      intro td hm eid hid
      show findTicket db.tickets eid = none
      rw [hdbt]
      rfl)
  have h2 := run_commit_ok_eq api env
    ⟨(import_loop failIncr (engineStep env.ticketEnv integ) batch
      (db.tickets, ImportResult.zero)).1, some integ⟩ integ tok batch d rfl hst htok hapi hfc
  have hrv := loop_revisit env.ticketEnv integ batch
    ((import_loop failIncr (engineStep env.ticketEnv integ) batch
      (db.tickets, ImportResult.zero)).1, ImportResult.zero)
    (fun td hm eid hid => hrows td hm eid hid)
  refine ⟨_, _, h2, ?_, ?_, ?_⟩
  · exact hrv.1
  · exact hrv.2.1
  · have h3 := hrv.2.2
    show (import_loop failIncr (engineStep env.ticketEnv integ) batch
      ((import_loop failIncr (engineStep env.ticketEnv integ) batch
        (db.tickets, ImportResult.zero)).1, ImportResult.zero)).2.skipped
      = (import_loop failIncr (engineStep env.ticketEnv integ) batch
        (db.tickets, ImportResult.zero)).2.analyzed
    rw [h3, hcnt]
    rfl

/-- Witness for `idempotent_reimport`: the already-analyzed row E keeps
its sentiment fields through a run, and the three-ticket scenario run
twice gives second-run counters 0 / 0 / 3. -/
theorem idempotent_reimport_witness :
    (∃ t', findTicket
        (import_and_analyze_tickets apiA renvA ⟨[rowE], some integA⟩ 7).2.tickets "E"
        = some t'
      ∧ t'.sentiment_score = rowE.sentiment_score
      ∧ t'.sentiment_confidence = rowE.sentiment_confidence
      ∧ t'.sentiment_analyzed_at = rowE.sentiment_analyzed_at)
    ∧ (∃ res2 db2, import_and_analyze_tickets apiA renvA
          (import_and_analyze_tickets apiA renvA dbEmpty 7).2 7 = (.ok res2, db2)
        ∧ res2.imported = 0 ∧ res2.analyzed = 0 ∧ res2.skipped = 3) := by
  constructor
  · exact idempotent_reimport.1 apiA renvA ⟨[rowE], some integA⟩ 7 "E" rowE rfl (by decide)
  · have hfirst : (import_and_analyze_tickets apiA renvA dbEmpty 7).1 = .ok ⟨3, 3, 0, 0⟩ := by
      decide
    have hrun1 : import_and_analyze_tickets apiA renvA dbEmpty 7
        = (.ok ⟨3, 3, 0, 0⟩, (import_and_analyze_tickets apiA renvA dbEmpty 7).2) := by
      rw [← hfirst]
    obtain ⟨res2, db2, hrun2, h0, h1, h2⟩ := idempotent_reimport.2 apiA renvA dbEmpty integA
      "tok" [tdA, tdB, tdC] 7 ⟨3, 3, 0, 0⟩ _ rfl rfl rfl (by decide) (by decide) rfl rfl hrun1
    exact ⟨res2, db2, hrun2, h0, h1, h2⟩

end ChurnRisk
